import Mathlib

/-!
# CameraCalibration: calibration drivers and the calibration file pair

A shallow embedding of `calibrationIO.cpp`, `calibration.cpp` and `stereo.cpp`.

The vision library is outside the repository.  Its numerical routines are
taken as parameters (the structure `Vision`); its matrix file storage is
modelled as a store of named matrices per path (`Disk`, `FileStorage`).
Every routine of the repository is translated statement by statement and
records what it does (console lines, files opened, library calls) in a log.

Matrix and point entries are floating-point numbers in the source.  They are
carried here as integers: the drivers only move them around, and the one
place that computes with them (the checkerboard model, `x * 47.0f` for
`x < 10`) is exact on these values.
-/

namespace CameraCalibration

/-! ## Data model -/

/-- A `cv::Mat`: its shape and its entries.  Images are matrices as well. -/
structure Mat where
  rows : Nat
  cols : Nat
  data : List Int
deriving DecidableEq, Repr

/-- The default-constructed `cv::Mat()`, which holds nothing. -/
def Mat.nil : Mat := ⟨0, 0, []⟩

/-- The test `cv::Mat::empty()`: no element is stored. -/
def Mat.empty (m : Mat) : Bool := m.rows == 0 || m.cols == 0

/-- A `cv::Point2f`. -/
structure Point2f where
  x : Int
  y : Int
deriving DecidableEq, Repr

/-- A `cv::Point3f`. -/
structure Point3f where
  x : Int
  y : Int
  z : Int
deriving DecidableEq, Repr

/-- A `cv::Size`. -/
structure Size where
  width : Nat
  height : Nat
deriving DecidableEq, Repr

/-- The top-level map of a storage file: named matrices in file order. -/
abbrev Doc := List (String × Mat)

/-- The file system as the drivers see it: which paths hold a parsable
storage file, and which paths can be opened for writing. -/
structure Disk where
  files : String → Option Doc
  writable : String → Bool

/-- Replace the content stored under one path. -/
def Disk.store (d : Disk) (p : String) (doc : Doc) : Disk :=
  { d with files := fun q => if q = p then some doc else d.files q }

/-- The value of `cv::Mat::size()`. -/
def Mat.size (m : Mat) : Size := ⟨m.cols, m.rows⟩

/-- What a routine leaves on the console, on disk and in the library. -/
inductive Event where
  | cerr (msg : String)
  | cout (msg : String)
  | coutMat (m : Mat)
  | coutNum (x : Int)
  | imread (path : String)
  | openRead (path : String) (ok : Bool)
  | openWrite (path : String) (ok : Bool)
  | write (path : String) (key : String) (m : Mat)
  | calibrateCamera (objectPoints : List (List Point3f)) (imagePoints : List (List Point2f))
  | stereoCalibrate (objectPoints : List (List Point3f))
      (imagePointsLeft imagePointsRight : List (List Point2f)) (K1 d1 K2 d2 : Mat)
  | findChessboardCorners (fname : String) (found : Bool)
  | stereoRectify (K1 d1 K2 d2 R T : Mat)
  | initUndistortRectifyMap (K d R P : Mat)
  | remap (image mapx mapy : Mat)
  | blockMatch (left right : Mat)
  | resize (image : Mat)
  | namedWindow (window : String)
  | imshow (window : String) (image : Mat)
  | waitKey
deriving DecidableEq, Repr

/-! ## The library's file storage -/

/-- A `cv::FileStorage` object: the path it was built on, whether it opened,
and the named matrices it holds (read from the file, or written so far). -/
structure FileStorage where
  filename : String
  isOpened : Bool
  doc : Doc

/-- The constructor `cv::FileStorage(filename, READ)`: opens when the path
holds a parsable storage file. -/
def FileStorage.openRead (d : Disk) (filename : String) : FileStorage :=
  match d.files filename with
  | some doc => ⟨filename, true, doc⟩
  | none => ⟨filename, false, []⟩

/-- The constructor `cv::FileStorage(filename, WRITE)`: opens when the path is
writable, and then starts the file afresh. -/
def FileStorage.openWrite (d : Disk) (filename : String) : Disk × FileStorage :=
  if d.writable filename then (d.store filename [], ⟨filename, true, []⟩)
  else (d, ⟨filename, false, []⟩)

/-- The statement `fs << name << m`: appends the named matrix; nothing
happens on a storage that did not open. -/
def FileStorage.write (fs : FileStorage) (name : String) (m : Mat) : FileStorage :=
  if fs.isOpened then { fs with doc := fs.doc ++ [(name, m)] } else fs

/-- The log lines of `fs << name << m`: a record is written only on an
opened storage. -/
def FileStorage.writeLog (fs : FileStorage) (name : String) (m : Mat) : List Event :=
  if fs.isOpened then [Event.write fs.filename name m] else []

/-- The call `fs.release()` of a storage opened for writing: the file now
holds what was written. -/
def FileStorage.release (fs : FileStorage) (d : Disk) : Disk :=
  if fs.isOpened then d.store fs.filename fs.doc else d

/-- The node `fs[name]`: the matrix stored under the name, if the storage
opened and has it. -/
def FileStorage.node (fs : FileStorage) (name : String) : Option Mat :=
  if fs.isOpened then fs.doc.lookup name else none

/-- The statement `node >> slot`: the slot takes the stored matrix, or
becomes the default matrix when the node is empty.  What the slot held
before plays no part. -/
def readMat (node : Option Mat) (_slot : Mat) : Mat :=
  match node with
  | some m => m
  | none => Mat.nil

/-! ## calibrationIO.cpp -/

/-- The six output slots of `readStereoCalibration`. -/
structure StereoCalibration where
  K1 : Mat
  distCoeff1 : Mat
  K2 : Mat
  distCoeff2 : Mat
  R : Mat
  t : Mat
deriving DecidableEq, Repr

/-- The function `saveStereoCalibration` of calibrationIO.cpp. -/
def saveStereoCalibration (d : Disk) (filename : String)
    (K1 distCoeff1 K2 distCoeff2 R t : Mat) : Disk :=
  let (d, fsw) := FileStorage.openWrite d filename
  let fsw := fsw.write "K1" K1
  let fsw := fsw.write "d1" distCoeff1
  let fsw := fsw.write "K2" K2
  let fsw := fsw.write "d2" distCoeff2
  let fsw := fsw.write "R" R
  let fsw := fsw.write "t" t
  fsw.release d

/-- The function `readStereoCalibration` of calibrationIO.cpp.  The argument
`slots` is what the six references hold on entry, the result what they hold
on return. -/
def readStereoCalibration (d : Disk) (filename : String)
    (slots : StereoCalibration) : StereoCalibration :=
  let fsr := FileStorage.openRead d filename
  let K1 := readMat (fsr.node "K1") slots.K1
  let distCoeff1 := readMat (fsr.node "d1") slots.distCoeff1
  let K2 := readMat (fsr.node "K2") slots.K2
  let distCoeff2 := readMat (fsr.node "d2") slots.distCoeff2
  let R := readMat (fsr.node "R") slots.R
  let t := readMat (fsr.node "t") slots.t
  ⟨K1, distCoeff1, K2, distCoeff2, R, t⟩

/-! ## The vision library -/

/-- Outputs of `cv::calibrateCamera` that the drivers use. -/
structure CalibrateCameraResult where
  reprojectionError : Int
  cameraMatrix : Mat
  distCoeffs : Mat
deriving DecidableEq, Repr

/-- Outputs of `cv::stereoCalibrate`: the four camera parameters are updated
in place, the other four matrices are produced. -/
structure StereoCalibrateResult where
  stereoError : Int
  cameraMatrixLeft : Mat
  distCoeffsLeft : Mat
  cameraMatrixRight : Mat
  distCoeffsRight : Mat
  R : Mat
  T : Mat
  E : Mat
  F : Mat
deriving DecidableEq, Repr

/-- Outputs of `cv::stereoRectify`. -/
structure Rectification where
  R1 : Mat
  R2 : Mat
  P1 : Mat
  P2 : Mat
  Q : Mat
deriving DecidableEq, Repr

/-- The routines of the vision library that the drivers call.  They are not
part of the repository; each is a parameter, and is taken to return. -/
structure Vision where
  imread : String → Mat
  cvtColor : Mat → Mat
  findChessboardCorners : Mat → Size → Nat → Bool × List Point2f
  cornerSubPix : Mat → List Point2f → List Point2f
  calibrateCamera : List (List Point3f) → List (List Point2f) → Size → CalibrateCameraResult
  stereoCalibrate : List (List Point3f) → List (List Point2f) → List (List Point2f) →
    Mat → Mat → Mat → Mat → Size → StereoCalibrateResult
  stereoRectify : Mat → Mat → Mat → Mat → Size → Mat → Mat → Nat → Int → Size → Rectification
  initUndistortRectifyMap : Mat → Mat → Mat → Mat → Size → Mat × Mat
  remap : Mat → Mat → Mat → Mat
  line : Mat → Int → Int → Int → Int → Mat
  resize : Mat → Mat
  stereoBM : Nat → Nat → Mat → Mat → Mat

/-- The library flag `cv::CALIB_CB_ADAPTIVE_THRESH`. -/
def CALIB_CB_ADAPTIVE_THRESH : Nat := 1
/-- The library flag `cv::CALIB_CB_NORMALIZE_IMAGE`. -/
def CALIB_CB_NORMALIZE_IMAGE : Nat := 2
/-- The library flag `cv::CALIB_CB_FAST_CHECK`. -/
def CALIB_CB_FAST_CHECK : Nat := 8
/-- The library flag `cv::CALIB_ZERO_DISPARITY`. -/
def CALIB_ZERO_DISPARITY : Nat := 1024

/-- What a driver routine returns and leaves behind. -/
structure Outcome where
  ret : Int
  disk : Disk
  log : List Event

/-! ## calibration.cpp: image paths -/

/-- The stream formatting `std::setfill('0') << std::setw(4) << i` of a
non-negative index: its decimal digits, padded on the left with zeros to four
characters. -/
def setw4 (i : Nat) : String :=
  let digits := toString i
  String.mk (List.replicate (4 - digits.length) '0') ++ digits

/-- The left image path built in every loop of calibration.cpp. -/
def fnameL (i : Nat) : String := "data/CalibrationLeft/DSCF" ++ setw4 i ++ "_L.JPG"

/-- The right image path built in every loop of calibration.cpp. -/
def fnameR (i : Nat) : String := "data/CalibrationRight/DSCF" ++ setw4 i ++ "_R.JPG"

/-! ## calibration.cpp: calibrateBothSets -/

namespace calibrateBothSets

/-- The debugging flag of `calibrateBothSets`. -/
def useGrayscalePreprocessing : Bool := true
/-- The constant `patternSize(10, 5)`. -/
def patternSize : Size := ⟨10, 5⟩
/-- The constant `squareSize = 47.0f`. -/
def squareSize : Int := 47
/-- The constant `imageSize(1920, 1080)`. -/
def imageSize : Size := ⟨1920, 1080⟩

/-- The checkerboard model built by the two nested loops over `y` and `x`. -/
def checkerboardPattern : List Point3f :=
  (List.range patternSize.height).foldl
    (fun pattern y =>
      (List.range patternSize.width).foldl
        (fun pattern x => pattern ++ [⟨(x : Int) * squareSize, (y : Int) * squareSize, 0⟩])
        pattern)
    []

/-- The variables the collection loop updates. -/
structure Loop where
  objectPointsLeft : List (List Point3f)
  objectPointsRight : List (List Point3f)
  imagePointsLeft : List (List Point2f)
  imagePointsRight : List (List Point2f)
  log : List Event

/-- The variables before the first iteration. -/
def init : Loop := ⟨[], [], [], [], []⟩

/-- One iteration of `for (int i = 457; i < 476; ++i)`. -/
def body (v : Vision) (s : Loop) (i : Nat) : Loop :=
  let imageL := v.imread (fnameL i)
  let s := { s with log := s.log ++ [Event.imread (fnameL i)] }
  if imageL.empty then
    { s with log := s.log ++ [Event.cerr ("Could not open left image: " ++ fnameL i)] }
  else
    let imageR := v.imread (fnameR i)
    let s := { s with log := s.log ++ [Event.imread (fnameR i)] }
    if imageR.empty then
      { s with log := s.log ++ [Event.cerr ("Could not open right image: " ++ fnameR i)] }
    else
      let detectImageL := if useGrayscalePreprocessing then v.cvtColor imageL else imageL
      let detectImageR := if useGrayscalePreprocessing then v.cvtColor imageR else imageR
      let flags :=
        if useGrayscalePreprocessing then
          CALIB_CB_ADAPTIVE_THRESH ||| CALIB_CB_NORMALIZE_IMAGE ||| CALIB_CB_FAST_CHECK
        else 0
      let (foundL, cornersL) := v.findChessboardCorners detectImageL patternSize flags
      let (foundR, cornersR) := v.findChessboardCorners detectImageR patternSize flags
      if foundL && foundR then
        let grayL := if !useGrayscalePreprocessing then v.cvtColor imageL else detectImageL
        let grayR := if !useGrayscalePreprocessing then v.cvtColor imageR else detectImageR
        let cornersL := v.cornerSubPix grayL cornersL
        let cornersR := v.cornerSubPix grayR cornersR
        { s with
          imagePointsLeft := s.imagePointsLeft ++ [cornersL]
          objectPointsLeft := s.objectPointsLeft ++ [checkerboardPattern]
          imagePointsRight := s.imagePointsRight ++ [cornersR]
          objectPointsRight := s.objectPointsRight ++ [checkerboardPattern] }
      else
        { s with log := s.log ++ [Event.cout
            ("Checkerboard detection failed for pair: " ++ fnameL i ++ " and " ++ fnameR i)] }

/-- The loop variables after the first `n` iterations, which take the
indices 457, 458, ... in turn. -/
def loop (v : Vision) (n : Nat) : Loop := (List.range' 457 n).foldl (body v) init

/-- The part of `calibrateBothSets` after the collection loop, from
"Now calibrate Left Camera" to the end; `s` holds the loop variables. -/
def finish (v : Vision) (d : Disk) (s : Loop) : Outcome :=
  if s.imagePointsLeft.isEmpty then
    ⟨-1, d, s.log ++ [Event.cerr "No valid detections for Left camera. Calibration failed!"]⟩
  else
    let left := v.calibrateCamera s.objectPointsLeft s.imagePointsLeft imageSize
    let log := s.log ++ [Event.calibrateCamera s.objectPointsLeft s.imagePointsLeft]
    if s.imagePointsRight.isEmpty then
      ⟨-1, d, log ++ [Event.cerr "No valid detections for Right camera. Calibration failed!"]⟩
    else
      let right :=
        v.calibrateCamera s.objectPointsRight s.imagePointsRight imageSize
      let log := log ++ [Event.calibrateCamera s.objectPointsRight s.imagePointsRight]
      let (d, fsLeft) := FileStorage.openWrite d "left_camera_calibration.yml"
      let log := log ++ [Event.openWrite "left_camera_calibration.yml" fsLeft.isOpened]
      let log := log ++ fsLeft.writeLog "CameraMatrix" left.cameraMatrix
      let fsLeft := fsLeft.write "CameraMatrix" left.cameraMatrix
      let log := log ++ fsLeft.writeLog "DistCoeffs" left.distCoeffs
      let fsLeft := fsLeft.write "DistCoeffs" left.distCoeffs
      let d := fsLeft.release d
      let (d, fsRight) := FileStorage.openWrite d "right_camera_calibration.yml"
      let log := log ++ [Event.openWrite "right_camera_calibration.yml" fsRight.isOpened]
      let log := log ++ fsRight.writeLog "CameraMatrix" right.cameraMatrix
      let fsRight := fsRight.write "CameraMatrix" right.cameraMatrix
      let log := log ++ fsRight.writeLog "DistCoeffs" right.distCoeffs
      let fsRight := fsRight.write "DistCoeffs" right.distCoeffs
      let d := fsRight.release d
      let log := log ++
        [ Event.cout "\n=== Left Camera Calibration ===\n",
          Event.cout "Reprojection Error = ", Event.coutNum left.reprojectionError,
          Event.cout " pixels\n",
          Event.cout "Camera Matrix (K):\n", Event.coutMat left.cameraMatrix, Event.cout "\n",
          Event.cout "Distortion Coefficients:\n", Event.coutMat left.distCoeffs,
          Event.cout "\n",
          Event.cout "\n=== Right Camera Calibration ===\n",
          Event.cout "Reprojection Error = ", Event.coutNum right.reprojectionError,
          Event.cout " pixels\n",
          Event.cout "Camera Matrix (K):\n", Event.coutMat right.cameraMatrix, Event.cout "\n",
          Event.cout "Distortion Coefficients:\n", Event.coutMat right.distCoeffs,
          Event.cout "\n" ]
      ⟨0, d, log⟩

end calibrateBothSets

/-- The routine `calibrateBothSets` of calibration.cpp: the collection loop
over the indices 457..475, then the two calibrations and the two files. -/
def calibrateBothSets (v : Vision) (d : Disk) : Outcome :=
  calibrateBothSets.finish v d (calibrateBothSets.loop v (476 - 457))

/-! ## calibration.cpp: stereoCalibratePair -/

namespace stereoCalibratePair

/-- The constant `patternSize(10, 5)`. -/
def patternSize : Size := ⟨10, 5⟩
/-- The constant `squareSize = 47.0f`. -/
def squareSize : Int := 47
/-- The constant `imageSize(1920, 1080)`. -/
def imageSize : Size := ⟨1920, 1080⟩
/-- The constant `refineCorners = false`. -/
def refineCorners : Bool := false
/-- The default `flags` argument of `cv::findChessboardCorners`. -/
def defaultFlags : Nat := CALIB_CB_ADAPTIVE_THRESH + CALIB_CB_NORMALIZE_IMAGE

/-- The checkerboard model built by the two nested loops over `y` and `x`. -/
def checkerboardPattern : List Point3f :=
  (List.range patternSize.height).foldl
    (fun pattern y =>
      (List.range patternSize.width).foldl
        (fun pattern x => pattern ++ [⟨(x : Int) * squareSize, (y : Int) * squareSize, 0⟩])
        pattern)
    []

/-- The variables the pair-detection loop updates. -/
structure Loop where
  objectPoints : List (List Point3f)
  imagePointsLeft : List (List Point2f)
  imagePointsRight : List (List Point2f)
  validPairs : Int
  log : List Event

/-- The variables before the first iteration. -/
def init (log : List Event) : Loop := ⟨[], [], [], 0, log⟩

/-- One iteration of `for (int i = 457; i < 476; ++i)`. -/
def body (v : Vision) (s : Loop) (i : Nat) : Loop :=
  let imageL := v.imread (fnameL i)
  let s := { s with log := s.log ++ [Event.imread (fnameL i)] }
  if imageL.empty then
    { s with log := s.log ++ [Event.cerr ("Could not open left image: " ++ fnameL i)] }
  else
    let imageR := v.imread (fnameR i)
    let s := { s with log := s.log ++ [Event.imread (fnameR i)] }
    if imageR.empty then
      { s with log := s.log ++ [Event.cerr ("Could not open right image: " ++ fnameR i)] }
    else
      let (foundL, cornersL) := v.findChessboardCorners imageL patternSize defaultFlags
      let (foundR, cornersR) := v.findChessboardCorners imageR patternSize defaultFlags
      if foundL && foundR then
        let cornersL :=
          if refineCorners then v.cornerSubPix (v.cvtColor imageL) cornersL else cornersL
        let cornersR :=
          if refineCorners then v.cornerSubPix (v.cvtColor imageR) cornersR else cornersR
        { s with
          imagePointsLeft := s.imagePointsLeft ++ [cornersL]
          imagePointsRight := s.imagePointsRight ++ [cornersR]
          objectPoints := s.objectPoints ++ [checkerboardPattern]
          validPairs := s.validPairs + 1 }
      else
        { s with log := s.log ++ [Event.cout
            ("Checkerboard detection failed for pair: " ++ fnameL i ++ " and " ++ fnameR i)] }

/-- The loop variables after the first `n` iterations, which take the
indices 457, 458, ... in turn; `log` is the log on entry to the loop. -/
def loop (v : Vision) (log : List Event) (n : Nat) : Loop :=
  (List.range' 457 n).foldl (body v) (init log)

/-- The part of `stereoCalibratePair` after the detection loop, from the
"Total valid stereo pairs" line to the end; `s` holds the loop variables and
the four matrices are the ones loaded from the two intrinsic files. -/
def finish (v : Vision) (d : Disk)
    (cameraMatrixLeft distCoeffsLeft cameraMatrixRight distCoeffsRight : Mat)
    (s : Loop) : Outcome :=
  let log := s.log ++
    [Event.cout "Total valid stereo pairs: ", Event.coutNum s.validPairs, Event.cout "\n"]
  if s.objectPoints.length < 5 then
    ⟨-1, d, log ++ [Event.cerr
      "Not enough valid checkerboard detections for reliable stereo calibration.\n"]⟩
  else if s.objectPoints.isEmpty then
    ⟨-1, d, log ++ [Event.cerr
      "No valid checkerboard detections found for stereo calibration.\n"]⟩
  else
    let r := v.stereoCalibrate s.objectPoints s.imagePointsLeft s.imagePointsRight
      cameraMatrixLeft distCoeffsLeft cameraMatrixRight distCoeffsRight
      imageSize
    let log := log ++
      [ Event.stereoCalibrate s.objectPoints s.imagePointsLeft s.imagePointsRight
          cameraMatrixLeft distCoeffsLeft cameraMatrixRight distCoeffsRight,
        Event.cout "\n=== Camera Matrices After Stereo Calibration ===\n",
        Event.cout "Left Camera Matrix (After):\n", Event.coutMat r.cameraMatrixLeft,
        Event.cout "\n",
        Event.cout "Right Camera Matrix (After):\n", Event.coutMat r.cameraMatrixRight,
        Event.cout "\n" ]
    let (d, fs) := FileStorage.openWrite d "stereo_calibration.yml"
    let log := log ++ [Event.openWrite "stereo_calibration.yml" fs.isOpened]
    if !fs.isOpened then
      ⟨-1, d, log ++ [Event.cerr
        "Error: Could not open stereo_calibration.yml for writing\n"]⟩
    else
      let log := log ++ fs.writeLog "RotationMatrix" r.R
      let fs := fs.write "RotationMatrix" r.R
      let log := log ++ fs.writeLog "TranslationVector" r.T
      let fs := fs.write "TranslationVector" r.T
      let log := log ++ fs.writeLog "EssentialMatrix" r.E
      let fs := fs.write "EssentialMatrix" r.E
      let log := log ++ fs.writeLog "FundamentalMatrix" r.F
      let fs := fs.write "FundamentalMatrix" r.F
      let d := fs.release d
      let log := log ++
        [ Event.cout "\n=== Stereo Calibration ===\n",
          Event.cout "Stereo Reprojection Error = ", Event.coutNum r.stereoError,
          Event.cout " pixels\n",
          Event.cout "Rotation Matrix (R):\n", Event.coutMat r.R, Event.cout "\n",
          Event.cout "Translation Vector (T):\n", Event.coutMat r.T, Event.cout "\n" ]
      ⟨0, d, log⟩

end stereoCalibratePair

/-- The routine `stereoCalibratePair` of calibration.cpp: the two intrinsic
files are loaded, the detection loop runs over the indices 457..475, then
come the pair-count check, the stereo calibration and the output file. -/
def stereoCalibratePair (v : Vision) (d : Disk) : Outcome :=
  let fsLeft := FileStorage.openRead d "left_camera_calibration.yml"
  let log := [Event.openRead "left_camera_calibration.yml" fsLeft.isOpened]
  if !fsLeft.isOpened then
    ⟨-1, d, log ++ [Event.cerr "Error: Could not open left_camera_calibration.yml\n"]⟩
  else
    let cameraMatrixLeft := readMat (fsLeft.node "CameraMatrix") Mat.nil
    let distCoeffsLeft := readMat (fsLeft.node "DistCoeffs") Mat.nil
    let fsRight := FileStorage.openRead d "right_camera_calibration.yml"
    let log := log ++ [Event.openRead "right_camera_calibration.yml" fsRight.isOpened]
    if !fsRight.isOpened then
      ⟨-1, d, log ++ [Event.cerr "Error: Could not open right_camera_calibration.yml\n"]⟩
    else
      let cameraMatrixRight := readMat (fsRight.node "CameraMatrix") Mat.nil
      let distCoeffsRight := readMat (fsRight.node "DistCoeffs") Mat.nil
      let log := log ++
        [ Event.cout "\n=== Loaded Camera Matrices Before Stereo Calibration ===\n",
          Event.cout "Left Camera Matrix (Before):\n", Event.coutMat cameraMatrixLeft,
          Event.cout "\n",
          Event.cout "Right Camera Matrix (Before):\n", Event.coutMat cameraMatrixRight,
          Event.cout "\n" ]
      stereoCalibratePair.finish v d cameraMatrixLeft distCoeffsLeft
        cameraMatrixRight distCoeffsRight (stereoCalibratePair.loop v log (476 - 457))

/-! ## calibration.cpp: stereoRectifyAndDisplay -/

namespace stereoRectifyAndDisplay

/-- The constant `imageSize(1920, 1080)`. -/
def imageSize : Size := ⟨1920, 1080⟩

/-- The draw of `std::uniform_int_distribution<>(457, 475)`: a value of the
closed range, fixed by what the random engine yields. -/
def distrib (gen : Nat) : Nat := 457 + gen % (475 - 457 + 1)

/-- The four images the guide-line loop draws on. -/
structure Lines where
  rectifiedL : Mat
  rectifiedR : Mat
  imageL : Mat
  imageR : Mat

/-- One iteration of `for (int y = 0; y < rectifiedL.rows; y += 50)`; the
bounds `rows` and `cols` are those of `rectifiedL` and `rectifiedR`. -/
def drawLines (v : Vision) (colsL colsR : Nat) (s : Lines) (y : Nat) : Lines :=
  { rectifiedL := v.line s.rectifiedL 0 y colsL y
    rectifiedR := v.line s.rectifiedR 0 y colsR y
    imageL := v.line s.imageL 0 y colsL y
    imageR := v.line s.imageR 0 y colsL y }

end stereoRectifyAndDisplay

/-- The routine `stereoRectifyAndDisplay` of calibration.cpp; `gen` is what
the random engine yields for the image pick. -/
def stereoRectifyAndDisplay (v : Vision) (d : Disk) (gen : Nat) : Outcome :=
  let fsLeft := FileStorage.openRead d "left_camera_calibration.yml"
  let log := [Event.openRead "left_camera_calibration.yml" fsLeft.isOpened]
  if !fsLeft.isOpened then
    ⟨-1, d, log ++ [Event.cerr "Error: Could not open left_camera_calibration.yml\n"]⟩
  else
    let cameraMatrixLeft := readMat (fsLeft.node "CameraMatrix") Mat.nil
    let distCoeffsLeft := readMat (fsLeft.node "DistCoeffs") Mat.nil
    let fsRight := FileStorage.openRead d "right_camera_calibration.yml"
    let log := log ++ [Event.openRead "right_camera_calibration.yml" fsRight.isOpened]
    if !fsRight.isOpened then
      ⟨-1, d, log ++ [Event.cerr "Error: Could not open right_camera_calibration.yml\n"]⟩
    else
      let cameraMatrixRight := readMat (fsRight.node "CameraMatrix") Mat.nil
      let distCoeffsRight := readMat (fsRight.node "DistCoeffs") Mat.nil
      let fsStereo := FileStorage.openRead d "stereo_calibration.yml"
      let log := log ++ [Event.openRead "stereo_calibration.yml" fsStereo.isOpened]
      if !fsStereo.isOpened then
        ⟨-1, d, log ++ [Event.cerr "Error: Could not open stereo_calibration.yml\n"]⟩
      else
        let R := readMat (fsStereo.node "RotationMatrix") Mat.nil
        let T := readMat (fsStereo.node "TranslationVector") Mat.nil
        let imageSize := stereoRectifyAndDisplay.imageSize
        let rect := v.stereoRectify cameraMatrixLeft distCoeffsLeft
          cameraMatrixRight distCoeffsRight imageSize R T CALIB_ZERO_DISPARITY 1 imageSize
        let log := log ++ [Event.stereoRectify cameraMatrixLeft distCoeffsLeft
          cameraMatrixRight distCoeffsRight R T]
        let (mapLx, mapLy) :=
          v.initUndistortRectifyMap cameraMatrixLeft distCoeffsLeft rect.R1 rect.P1 imageSize
        let (mapRx, mapRy) :=
          v.initUndistortRectifyMap cameraMatrixRight distCoeffsRight rect.R2 rect.P2 imageSize
        let log := log ++
          [ Event.initUndistortRectifyMap cameraMatrixLeft distCoeffsLeft rect.R1 rect.P1,
            Event.initUndistortRectifyMap cameraMatrixRight distCoeffsRight rect.R2 rect.P2 ]
        let randomIndex := stereoRectifyAndDisplay.distrib gen
        let imageL := v.imread (fnameL randomIndex)
        let imageR := v.imread (fnameR randomIndex)
        let log := log ++ [Event.imread (fnameL randomIndex), Event.imread (fnameR randomIndex)]
        if imageL.empty || imageR.empty then
          ⟨-1, d, log ++ [Event.cerr "Error: Could not load one or both images.\n"]⟩
        else
          let rectifiedL := v.remap imageL mapLx mapLy
          let rectifiedR := v.remap imageR mapRx mapRy
          let log := log ++
            [ Event.remap imageL mapLx mapLy, Event.remap imageR mapRx mapRy,
              Event.namedWindow "Original Left", Event.namedWindow "Original Right",
              Event.namedWindow "Rectified Left", Event.namedWindow "Rectified Right",
              Event.namedWindow "Rectified Left with Lines",
              Event.namedWindow "Rectified Right with Lines",
              Event.namedWindow "Original Left with lines",
              Event.namedWindow "Original Right with lines",
              Event.imshow "Original Left" imageL, Event.imshow "Original Right" imageR,
              Event.imshow "Rectified Left" rectifiedL,
              Event.imshow "Rectified Right" rectifiedR ]
          let drawn := (List.range' 0 ((rectifiedL.rows + 49) / 50) 50).foldl
            (stereoRectifyAndDisplay.drawLines v rectifiedL.cols rectifiedR.cols)
            ⟨rectifiedL, rectifiedR, imageL, imageR⟩
          let log := log ++
            [ Event.imshow "Rectified Left with Lines" drawn.rectifiedL,
              Event.imshow "Rectified Right with Lines" drawn.rectifiedR,
              Event.imshow "Original Left with lines" drawn.imageL,
              Event.imshow "Original Right with lines" drawn.imageR,
              Event.cout "Displayed stereo pair #", Event.coutNum randomIndex,
              Event.cout " rectified.\n",
              Event.waitKey ]
          ⟨0, d, log⟩

/-! ## calibration.cpp: displayCheckerBoardPattern -/

/-- The display side of `displayCheckerBoardPattern`: the library routine
that draws the detected corners on an image, and the user at the keyboard,
`waitKey i` being the key that `cv::waitKey(0)` returns in the iteration of
index `i`. -/
structure Display where
  drawChessboardCorners : Mat → Size → List Point2f → Bool → Mat
  waitKey : Nat → Int

namespace displayCheckerBoardPattern

/-- The constant `patternSize(10, 5)`. -/
def patternSize : Size := ⟨10, 5⟩
/-- The default `flags` argument of `cv::findChessboardCorners`. -/
def defaultFlags : Nat := CALIB_CB_ADAPTIVE_THRESH + CALIB_CB_NORMALIZE_IMAGE

/-- The variables the display loop updates; `exited` records that the loop
was left by `break`. -/
structure Loop where
  allCornersLeft : List (List Point2f)
  allCornersRight : List (List Point2f)
  failedImagesLeft : List String
  failedImagesRight : List String
  log : List Event
  exited : Bool

/-- The variables before the first iteration, the two windows being set up. -/
def init : Loop :=
  ⟨[], [], [], [], [Event.namedWindow "Left", Event.namedWindow "Right"], false⟩

/-- One iteration of `for (int i = 457; i < 476; ++i)`; after a `break` the
remaining iterations do nothing. -/
def body (v : Vision) (u : Display) (s : Loop) (i : Nat) : Loop :=
  if s.exited then s
  else
    let imageL := v.imread (fnameL i)
    let s := { s with log := s.log ++ [Event.imread (fnameL i)] }
    if imageL.empty then
      { s with log := s.log ++
          [Event.cerr ("Could not open or find the image: " ++ fnameL i)] }
    else
      let imageR := v.imread (fnameR i)
      let s := { s with log := s.log ++ [Event.imread (fnameR i)] }
      if imageR.empty then
        { s with log := s.log ++
            [Event.cerr ("Could not open or find the image: " ++ fnameR i)] }
      else
        let (foundL, cornersL) := v.findChessboardCorners imageL patternSize defaultFlags
        let s := { s with log := s.log ++ [Event.findChessboardCorners (fnameL i) foundL] }
        if foundL then
          let imageL := u.drawChessboardCorners imageL patternSize cornersL foundL
          let s := { s with allCornersLeft := s.allCornersLeft ++ [cornersL] }
          let (foundR, cornersR) := v.findChessboardCorners imageR patternSize defaultFlags
          let s := { s with log := s.log ++ [Event.findChessboardCorners (fnameR i) foundR] }
          if foundR then
            let imageR := u.drawChessboardCorners imageR patternSize cornersR foundR
            let s := { s with allCornersRight := s.allCornersRight ++ [cornersR] }
            let s := { s with log := s.log ++
              [Event.imshow "Left" imageL, Event.imshow "Right" imageR, Event.waitKey] }
            let key := u.waitKey i
            if key = 27 then
              { s with
                log := s.log ++ [Event.cout "ESC pressed. Exiting early.\n"]
                exited := true }
            else s
          else
            { s with
              log := s.log ++ [Event.cerr ("Checkerboard not found in image: " ++ fnameR i)]
              failedImagesRight := s.failedImagesRight ++ [fnameR i] }
        else
          { s with
            log := s.log ++
              [Event.cerr ("Checkerboard not found in left image: " ++ fnameL i)]
            failedImagesLeft := s.failedImagesLeft ++ [fnameL i] }

/-- The loop variables after the first `n` iterations, which take the
indices 457, 458, ... in turn. -/
def loop (v : Vision) (u : Display) (n : Nat) : Loop :=
  (List.range' 457 n).foldl (body v u) init

/-- The part of `displayCheckerBoardPattern` after the loop: the summary
lines and, when the two corner lists differ in size, the warning with the
two lists of failed images. -/
def finish (d : Disk) (s : Loop) : Outcome :=
  let log := s.log ++
    [ Event.cout "Finished displaying all calibration images.\n",
      Event.cout "Total images processed: ",
      Event.coutNum ((s.allCornersLeft.length + s.allCornersRight.length : Nat) : Int) ]
  if s.allCornersLeft.length ≠ s.allCornersRight.length then
    ⟨0, d, log ++
      [ Event.cerr
          "Warning: Number of detected corners in left and right images do not match!",
        Event.cout "Failed images (Left):\n" ]
      ++ s.failedImagesLeft.map Event.cout
      ++ [Event.cout "Failed images (Right):\n"]
      ++ s.failedImagesRight.map Event.cout⟩
  else ⟨0, d, log⟩

end displayCheckerBoardPattern

/-- The routine `displayCheckerBoardPattern` of calibration.cpp: the display
loop over the indices 457..475, then the summary. -/
def displayCheckerBoardPattern (v : Vision) (u : Display) (d : Disk) : Outcome :=
  displayCheckerBoardPattern.finish d (displayCheckerBoardPattern.loop v u (476 - 457))

/-! ## calibration.cpp: main -/

namespace calibration

/-- The function `main` of calibration.cpp: of the five routines only
`stereoRectifyAndDisplay` is called (the other calls are commented out), its
return value is dropped, and `main` returns 0. -/
def main (v : Vision) (d : Disk) (gen : Nat) : Outcome :=
  let o := stereoRectifyAndDisplay v d gen
  ⟨0, o.disk, o.log⟩

end calibration

/-! ## stereo.cpp -/

namespace stereo

/-- The constant `maxDisparity = 64` of the stereo demo. -/
def maxDisparity : Nat := 64
/-- The constant `blockSize = 21` of the stereo demo. -/
def blockSize : Nat := 21
/-- The constant `debugging = false` of the stereo demo. -/
def debugging : Bool := false

/-- The function `main` of stereo.cpp, called as
`stereo <image1> <image2> <calibration>`; the three arguments are `argv[1]`,
`argv[2]` and `argv[3]`. -/
def main (v : Vision) (d : Disk) (arg1 arg2 arg3 : String) : Outcome :=
  let image1 := v.imread arg1
  let image2 := v.imread arg2
  let log := [Event.imread arg1, Event.imread arg2]
  let c := readStereoCalibration d arg3 ⟨Mat.nil, Mat.nil, Mat.nil, Mat.nil, Mat.nil, Mat.nil⟩
  let log := log ++ [Event.openRead arg3 (FileStorage.openRead d arg3).isOpened]
  let log := log ++
    [ Event.cout "K1", Event.coutMat c.K1, Event.cout "d1", Event.coutMat c.distCoeff1,
      Event.cout "K2", Event.coutMat c.K2, Event.cout "d2", Event.coutMat c.distCoeff2,
      Event.cout "R", Event.coutMat c.R, Event.cout "t", Event.coutMat c.t ]
  let rect := v.stereoRectify c.K1 c.distCoeff1 c.K2 c.distCoeff2 image1.size c.R c.t
    CALIB_ZERO_DISPARITY (-1) ⟨0, 0⟩
  let log := log ++ [Event.stereoRectify c.K1 c.distCoeff1 c.K2 c.distCoeff2 c.R c.t]
  let (UmapLeft, VmapLeft) :=
    v.initUndistortRectifyMap c.K1 c.distCoeff1 rect.R1 rect.P1 image1.size
  let (UmapRight, VmapRight) :=
    v.initUndistortRectifyMap c.K2 c.distCoeff2 rect.R2 rect.P2 image1.size
  let log := log ++
    [ Event.initUndistortRectifyMap c.K1 c.distCoeff1 rect.R1 rect.P1,
      Event.initUndistortRectifyMap c.K2 c.distCoeff2 rect.R2 rect.P2 ]
  let image1Rectified := v.remap image1 UmapLeft VmapLeft
  let image2Rectified := v.remap image2 UmapRight VmapRight
  let log := log ++
    [Event.remap image1 UmapLeft VmapLeft, Event.remap image2 UmapRight VmapRight]
  let image1RS := v.resize image1Rectified
  let image2RS := v.resize image2Rectified
  let log := log ++ [Event.resize image1Rectified, Event.resize image2Rectified]
  let log := log ++
    (if debugging then
      [ Event.cout "Image 1 size before resize: ", Event.cout "Image 2 size before resize: ",
        Event.cout "Image 1 size after resize: ", Event.cout "Image 2 size after resize: " ]
    else [])
  let grayLeft := v.cvtColor image1RS
  let grayRight := v.cvtColor image2RS
  let _disparityBM := v.stereoBM maxDisparity blockSize grayLeft grayRight
  let log := log ++
    [ Event.blockMatch grayLeft grayRight,
      Event.namedWindow "Left", Event.namedWindow "Right",
      Event.namedWindow "Left_Remapped", Event.namedWindow "Right_Remaped",
      Event.imshow "Left" image1, Event.imshow "Right" image2,
      Event.imshow "Left_Remapped" image1RS, Event.imshow "Right_Remaped" image2RS,
      Event.waitKey ]
  ⟨0, d, log⟩

end stereo

/-! ## The pairs the collection loops keep -/

namespace calibrateBothSets

/-- Both images of index `i` load. -/
def loaded (v : Vision) (i : Nat) : Bool :=
  !(v.imread (fnameL i)).empty && !(v.imread (fnameR i)).empty

/-- The left detection of index `i`, as `calibrateBothSets` runs it: on the
grey image, with the three flags. -/
def detectL (v : Vision) (i : Nat) : Bool × List Point2f :=
  v.findChessboardCorners (v.cvtColor (v.imread (fnameL i))) patternSize
    (CALIB_CB_ADAPTIVE_THRESH ||| CALIB_CB_NORMALIZE_IMAGE ||| CALIB_CB_FAST_CHECK)

/-- The right detection of index `i`, as `calibrateBothSets` runs it. -/
def detectR (v : Vision) (i : Nat) : Bool × List Point2f :=
  v.findChessboardCorners (v.cvtColor (v.imread (fnameR i))) patternSize
    (CALIB_CB_ADAPTIVE_THRESH ||| CALIB_CB_NORMALIZE_IMAGE ||| CALIB_CB_FAST_CHECK)

/-- Index `i` is a valid pair: both images load and both detections succeed. -/
def validPair (v : Vision) (i : Nat) : Bool :=
  loaded v i && (detectL v i).1 && (detectR v i).1

/-- The left corner set of index `i`: the detected corners after refinement. -/
def cornersL (v : Vision) (i : Nat) : List Point2f :=
  v.cornerSubPix (v.cvtColor (v.imread (fnameL i))) (detectL v i).2

/-- The right corner set of index `i`: the detected corners after refinement. -/
def cornersR (v : Vision) (i : Nat) : List Point2f :=
  v.cornerSubPix (v.cvtColor (v.imread (fnameR i))) (detectR v i).2

end calibrateBothSets

namespace stereoCalibratePair

/-- Both images of index `i` load. -/
def loaded (v : Vision) (i : Nat) : Bool :=
  !(v.imread (fnameL i)).empty && !(v.imread (fnameR i)).empty

/-- The left detection of index `i`, as `stereoCalibratePair` runs it: on the
image as loaded, with the default flags. -/
def detectL (v : Vision) (i : Nat) : Bool × List Point2f :=
  v.findChessboardCorners (v.imread (fnameL i)) patternSize defaultFlags

/-- The right detection of index `i`, as `stereoCalibratePair` runs it. -/
def detectR (v : Vision) (i : Nat) : Bool × List Point2f :=
  v.findChessboardCorners (v.imread (fnameR i)) patternSize defaultFlags

/-- Index `i` is a valid pair: both images load and both detections succeed. -/
def validPair (v : Vision) (i : Nat) : Bool :=
  loaded v i && (detectL v i).1 && (detectR v i).1

end stereoCalibratePair

/-- The lines a collection loop leaves in the log: image reads, the two
"could not open" errors, and console output. -/
def LoopLine (e : Event) : Prop :=
  (∃ q, e = Event.imread q)
    ∨ (∃ i, e = Event.cerr ("Could not open left image: " ++ fnameL i))
    ∨ (∃ i, e = Event.cerr ("Could not open right image: " ++ fnameR i))
    ∨ (∃ m, e = Event.cout m)

/-! ## The lines of the display loop -/

namespace displayCheckerBoardPattern

/-- The left detection of index `i`, as `displayCheckerBoardPattern` runs it. -/
def detectL (v : Vision) (i : Nat) : Bool × List Point2f :=
  v.findChessboardCorners (v.imread (fnameL i)) patternSize defaultFlags

/-- The right detection of index `i`, as `displayCheckerBoardPattern` runs it. -/
def detectR (v : Vision) (i : Nat) : Bool × List Point2f :=
  v.findChessboardCorners (v.imread (fnameR i)) patternSize defaultFlags

/-- The detections that the iteration of index `i` runs when it is reached:
none unless both images load, then the left one, and the right one only
after the left one succeeded. -/
def detections (v : Vision) (i : Nat) : List Event :=
  if (v.imread (fnameL i)).empty || (v.imread (fnameR i)).empty then []
  else
    Event.findChessboardCorners (fnameL i) (detectL v i).1 ::
      (if (detectL v i).1 then [Event.findChessboardCorners (fnameR i) (detectR v i).1]
       else [])

/-- The lines the iteration of index `i` can leave in the log: reads of its
two images, error lines (which start with the letter `C`), its detections,
the two displays, the wait for a key, and console output. -/
def DisplayLine (v : Vision) (i : Nat) (e : Event) : Prop :=
  e = Event.imread (fnameL i) ∨ e = Event.imread (fnameR i)
    ∨ (∃ m, e = Event.cerr m ∧ m.data.head? = some 'C')
    ∨ e ∈ detections v i
    ∨ (∃ w m, e = Event.imshow w m) ∨ e = Event.waitKey ∨ (∃ m, e = Event.cout m)

end displayCheckerBoardPattern

/-! ## Sample inputs -/

/-- A 3 x 3 identity matrix. -/
def sampleEye : Mat := ⟨3, 3, [1, 0, 0, 0, 1, 0, 0, 0, 1]⟩

/-- A 3 x 1 translation. -/
def sampleShift : Mat := ⟨3, 1, [120, 0, 0]⟩

/-- A 1 x 5 vector of distortion coefficients. -/
def sampleDist : Mat := ⟨1, 5, [0, 0, 0, 0, 0]⟩

/-- A small non-empty image. -/
def sampleImage : Mat := ⟨2, 2, [1, 2, 3, 4]⟩

/-- A library in which every image loads and every detection succeeds. -/
def sampleVision : Vision where
  imread := fun _ => sampleImage
  cvtColor := fun m => m
  findChessboardCorners := fun _ _ _ => (true, [⟨0, 0⟩])
  cornerSubPix := fun _ c => c
  calibrateCamera := fun _ _ _ => ⟨0, sampleEye, sampleDist⟩
  stereoCalibrate := fun _ _ _ k1 d1 k2 d2 _ =>
    ⟨0, k1, d1, k2, d2, sampleEye, sampleShift, sampleEye, sampleEye⟩
  stereoRectify := fun _ _ _ _ _ _ _ _ _ _ => ⟨sampleEye, sampleEye, sampleEye, sampleEye, sampleEye⟩
  initUndistortRectifyMap := fun _ _ _ _ _ => (sampleImage, sampleImage)
  remap := fun m _ _ => m
  line := fun m _ _ _ _ => m
  resize := fun m => m
  stereoBM := fun _ _ m _ => m

/-- A display that draws nothing and a user who never presses ESC. -/
def sampleDisplay : Display := ⟨fun m _ _ _ => m, fun _ => 0⟩

/-- A library in which no image loads. -/
def blindVision : Vision := { sampleVision with imread := fun _ => Mat.nil }

/-- A disk with no file on it, where every path can be written. -/
def blankDisk : Disk := ⟨fun _ => none, fun _ => true⟩

/-- A disk that holds the two intrinsic calibration files and nothing else,
where every path can be written. -/
def calibratedDisk : Disk :=
  ⟨fun q =>
    if q = "left_camera_calibration.yml" then
      some [("CameraMatrix", sampleEye), ("DistCoeffs", sampleDist)]
    else if q = "right_camera_calibration.yml" then
      some [("CameraMatrix", sampleEye), ("DistCoeffs", sampleDist)]
    else none,
   fun _ => true⟩

/-- A disk that holds the two intrinsic calibration files and the stereo
calibration file, where every path can be written. -/
def stereoDisk : Disk :=
  ⟨fun q =>
    if q = "left_camera_calibration.yml" then
      some [("CameraMatrix", sampleEye), ("DistCoeffs", sampleDist)]
    else if q = "right_camera_calibration.yml" then
      some [("CameraMatrix", sampleEye), ("DistCoeffs", sampleDist)]
    else if q = "stereo_calibration.yml" then
      some [ ("RotationMatrix", sampleEye), ("TranslationVector", sampleShift),
        ("EssentialMatrix", sampleEye), ("FundamentalMatrix", sampleEye) ]
    else none,
   fun _ => true⟩

/-- A library in which every image loads, the image of a path being as wide
as the path is long, and a detection succeeds on the images of width 35
only: these are the left images, the right paths being one character
longer. -/
def rightFailVision : Vision :=
  { sampleVision with
    imread := fun q => ⟨1, q.length, [0]⟩
    findChessboardCorners := fun m _ _ => (m.cols == 35, []) }

/-- The event is a record written to a storage file. -/
def Event.isWrite : Event → Bool
  | .write _ _ _ => true
  | _ => false

/-- A disk on which `left_camera_calibration.yml` is left over from an
earlier run and is read-only; no other file exists, and every other path can
be written. -/
def staleDisk : Disk :=
  ⟨fun q =>
    if q = "left_camera_calibration.yml" then
      some [("CameraMatrix", ⟨1, 1, [99]⟩), ("DistCoeffs", ⟨1, 1, [98]⟩)]
    else none,
   fun q => q != "left_camera_calibration.yml"⟩

/-! ## The calibration file pair -/

/-- Reading a node into a slot gives the node's matrix or the default one. -/
theorem readMat_eq_getD (node : Option Mat) (slot : Mat) :
    readMat node slot = node.getD Mat.nil := by
  cases node <;> rfl

/-- C1: on a writable path, `saveStereoCalibration` followed by
`readStereoCalibration` returns each of the six matrices in the slot it was
written from, whatever the slots held before. -/
theorem saveStereoCalibration_readStereoCalibration_roundtrip (d : Disk) (p : String)
    (K1 d1 K2 d2 R t : Mat) (slots : StereoCalibration) (hw : d.writable p = true) :
    readStereoCalibration (saveStereoCalibration d p K1 d1 K2 d2 R t) p slots
      = ⟨K1, d1, K2, d2, R, t⟩ := by
  simp [readStereoCalibration, saveStereoCalibration, FileStorage.openWrite, hw,
    FileStorage.write, FileStorage.release, Disk.store, FileStorage.openRead,
    FileStorage.node, readMat, List.lookup]

/-- C2: every slot of `readStereoCalibration` is fixed by the file and by its
own key alone: it is the matrix stored under that key when the file is
readable and has the key, and the default (empty) matrix otherwise.  The
prior content of the slots plays no part, and the function is total. -/
theorem readStereoCalibration_slots (d : Disk) (p : String) (slots : StereoCalibration) :
    (readStereoCalibration d p slots =
      ⟨((d.files p).bind (fun doc => doc.lookup "K1")).getD Mat.nil,
       ((d.files p).bind (fun doc => doc.lookup "d1")).getD Mat.nil,
       ((d.files p).bind (fun doc => doc.lookup "K2")).getD Mat.nil,
       ((d.files p).bind (fun doc => doc.lookup "d2")).getD Mat.nil,
       ((d.files p).bind (fun doc => doc.lookup "R")).getD Mat.nil,
       ((d.files p).bind (fun doc => doc.lookup "t")).getD Mat.nil⟩)
    ∧ Mat.nil.empty = true := by
  refine ⟨?_, rfl⟩
  unfold readStereoCalibration FileStorage.openRead
  cases hf : d.files p with
  | none => simp [FileStorage.node, readMat_eq_getD]
  | some doc => simp [FileStorage.node, readMat_eq_getD]

/-! ## The checkerboard model -/

/-- C10: both routines build the same 50 model points in row-major order,
the point at position `y * 10 + x` being `(47 x, 47 y, 0)`; the points are
pairwise distinct and lie in the plane `z = 0`. -/
theorem checkerboardPattern_model :
    calibrateBothSets.checkerboardPattern = stereoCalibratePair.checkerboardPattern
    ∧ calibrateBothSets.checkerboardPattern.length = 50
    ∧ (∀ y, y < 5 → ∀ x, x < 10 →
        calibrateBothSets.checkerboardPattern[y * 10 + x]?
          = some ⟨47 * (x : Int), 47 * (y : Int), 0⟩)
    ∧ calibrateBothSets.checkerboardPattern.Nodup
    ∧ (∀ q ∈ calibrateBothSets.checkerboardPattern, q.z = 0) := by
  decide

/-! ## The collection loops -/

namespace calibrateBothSets

/-- What one iteration adds to the four point lists. -/
theorem both_body_points (v : Vision) (s : Loop) (i : Nat) :
    (body v s i).imagePointsLeft
        = s.imagePointsLeft ++ (if validPair v i then [cornersL v i] else [])
    ∧ (body v s i).imagePointsRight
        = s.imagePointsRight ++ (if validPair v i then [cornersR v i] else [])
    ∧ (body v s i).objectPointsLeft
        = s.objectPointsLeft ++ (if validPair v i then [checkerboardPattern] else [])
    ∧ (body v s i).objectPointsRight
        = s.objectPointsRight ++ (if validPair v i then [checkerboardPattern] else []) := by
  unfold body validPair loaded cornersL cornersR detectL detectR
  cases h1 : (v.imread (fnameL i)).empty <;> cases h2 : (v.imread (fnameR i)).empty <;>
    simp [useGrayscalePreprocessing] <;>
    split_ifs <;> simp_all

/-- One iteration extends the log, starting with the read of the left image,
and adds only loop lines. -/
theorem both_body_log (v : Vision) (s : Loop) (i : Nat) :
    ∃ added, (body v s i).log = s.log ++ Event.imread (fnameL i) :: added
      ∧ ∀ e ∈ added, LoopLine e := by
  unfold body LoopLine
  cases h1 : (v.imread (fnameL i)).empty <;> cases h2 : (v.imread (fnameR i)).empty <;>
    simp [useGrayscalePreprocessing] <;>
    split_ifs <;> simp_all <;>
    first | exact Or.inl ⟨i, rfl⟩ | exact Or.inr ⟨i, rfl⟩

/-- The four point lists after folding the body over any list of indices. -/
theorem both_foldl_points (v : Vision) (l : List Nat) (s : Loop) :
    (l.foldl (body v) s).imagePointsLeft
        = s.imagePointsLeft ++ (l.filter (validPair v)).map (cornersL v)
    ∧ (l.foldl (body v) s).imagePointsRight
        = s.imagePointsRight ++ (l.filter (validPair v)).map (cornersR v)
    ∧ (l.foldl (body v) s).objectPointsLeft
        = s.objectPointsLeft ++ (l.filter (validPair v)).map (fun _ => checkerboardPattern)
    ∧ (l.foldl (body v) s).objectPointsRight
        = s.objectPointsRight ++ (l.filter (validPair v)).map (fun _ => checkerboardPattern) := by
  induction l generalizing s with
  | nil => simp
  | cons i l ih =>
    obtain ⟨h1, h2, h3, h4⟩ := both_body_points v s i
    obtain ⟨k1, k2, k3, k4⟩ := ih (body v s i)
    simp only [List.foldl_cons, k1, k2, k3, k4, h1, h2, h3, h4, List.filter_cons]
    cases validPair v i <;> simp

/-- The log after folding the body over any list of indices keeps the log
on entry, reads the left image of every index, and adds only loop lines. -/
theorem both_foldl_log (v : Vision) (l : List Nat) (s : Loop) :
    (∀ e ∈ s.log, e ∈ (l.foldl (body v) s).log)
    ∧ (∀ i ∈ l, Event.imread (fnameL i) ∈ (l.foldl (body v) s).log)
    ∧ (∀ e ∈ (l.foldl (body v) s).log, e ∈ s.log ∨ LoopLine e) := by
  induction l generalizing s with
  | nil => exact ⟨fun _ he => he, by simp, fun _ he => Or.inl he⟩
  | cons i l ih =>
    obtain ⟨added, hlog, hadded⟩ := both_body_log v s i
    obtain ⟨k1, k2, k3⟩ := ih (body v s i)
    simp only [List.foldl_cons]
    refine ⟨fun e he => k1 e (by simp [hlog, he]), ?_, ?_⟩
    · intro j hj
      rcases List.mem_cons.mp hj with rfl | hj
      · exact k1 _ (by simp [hlog])
      · exact k2 j hj
    · intro e he
      rcases k3 e he with h | h
      · rw [hlog] at h
        rcases List.mem_append.mp h with h | h
        · exact Or.inl h
        · rcases List.mem_cons.mp h with rfl | h
          · exact Or.inr (Or.inl ⟨_, rfl⟩)
          · exact Or.inr (hadded e h)
      · exact Or.inr h

/-- The four point lists after `n` iterations of the loop. -/
theorem both_loop_points (v : Vision) (n : Nat) :
    (loop v n).imagePointsLeft
        = ((List.range' 457 n).filter (validPair v)).map (cornersL v)
    ∧ (loop v n).imagePointsRight
        = ((List.range' 457 n).filter (validPair v)).map (cornersR v)
    ∧ (loop v n).objectPointsLeft
        = ((List.range' 457 n).filter (validPair v)).map (fun _ => checkerboardPattern)
    ∧ (loop v n).objectPointsRight
        = ((List.range' 457 n).filter (validPair v)).map (fun _ => checkerboardPattern) := by
  simpa [init] using both_foldl_points v (List.range' 457 n) init

end calibrateBothSets

namespace stereoCalibratePair

/-- What one iteration adds to the three point lists and to the counter. -/
theorem pair_body_points (v : Vision) (s : Loop) (i : Nat) :
    (body v s i).imagePointsLeft
        = s.imagePointsLeft ++ (if validPair v i then [(detectL v i).2] else [])
    ∧ (body v s i).imagePointsRight
        = s.imagePointsRight ++ (if validPair v i then [(detectR v i).2] else [])
    ∧ (body v s i).objectPoints
        = s.objectPoints ++ (if validPair v i then [checkerboardPattern] else [])
    ∧ (body v s i).validPairs = s.validPairs + (if validPair v i then 1 else 0) := by
  unfold body validPair loaded detectL detectR
  cases h1 : (v.imread (fnameL i)).empty <;> cases h2 : (v.imread (fnameR i)).empty <;>
    simp [refineCorners] <;>
    split_ifs <;> simp_all

/-- One iteration extends the log, starting with the read of the left image,
and adds only loop lines. -/
theorem pair_body_log (v : Vision) (s : Loop) (i : Nat) :
    ∃ added, (body v s i).log = s.log ++ Event.imread (fnameL i) :: added
      ∧ ∀ e ∈ added, LoopLine e := by
  unfold body LoopLine
  cases h1 : (v.imread (fnameL i)).empty <;> cases h2 : (v.imread (fnameR i)).empty <;>
    simp [refineCorners] <;>
    split_ifs <;> simp_all <;>
    first | exact Or.inl ⟨i, rfl⟩ | exact Or.inr ⟨i, rfl⟩

/-- The three point lists and the counter after folding the body over any
list of indices. -/
theorem pair_foldl_points (v : Vision) (l : List Nat) (s : Loop) :
    (l.foldl (body v) s).imagePointsLeft
        = s.imagePointsLeft ++ (l.filter (validPair v)).map (fun i => (detectL v i).2)
    ∧ (l.foldl (body v) s).imagePointsRight
        = s.imagePointsRight ++ (l.filter (validPair v)).map (fun i => (detectR v i).2)
    ∧ (l.foldl (body v) s).objectPoints
        = s.objectPoints ++ (l.filter (validPair v)).map (fun _ => checkerboardPattern)
    ∧ (l.foldl (body v) s).validPairs = s.validPairs + ((l.filter (validPair v)).length : Int) := by
  induction l generalizing s with
  | nil => simp
  | cons i l ih =>
    obtain ⟨h1, h2, h3, h4⟩ := pair_body_points v s i
    obtain ⟨k1, k2, k3, k4⟩ := ih (body v s i)
    simp only [List.foldl_cons, k1, k2, k3, k4, h1, h2, h3, h4, List.filter_cons]
    cases validPair v i <;> simp
    omega

/-- The log after folding the body over any list of indices keeps the log
on entry, reads the left image of every index, and adds only loop lines. -/
theorem pair_foldl_log (v : Vision) (l : List Nat) (s : Loop) :
    (∀ e ∈ s.log, e ∈ (l.foldl (body v) s).log)
    ∧ (∀ i ∈ l, Event.imread (fnameL i) ∈ (l.foldl (body v) s).log)
    ∧ (∀ e ∈ (l.foldl (body v) s).log, e ∈ s.log ∨ LoopLine e) := by
  induction l generalizing s with
  | nil => exact ⟨fun _ he => he, by simp, fun _ he => Or.inl he⟩
  | cons i l ih =>
    obtain ⟨added, hlog, hadded⟩ := pair_body_log v s i
    obtain ⟨k1, k2, k3⟩ := ih (body v s i)
    simp only [List.foldl_cons]
    refine ⟨fun e he => k1 e (by simp [hlog, he]), ?_, ?_⟩
    · intro j hj
      rcases List.mem_cons.mp hj with rfl | hj
      · exact k1 _ (by simp [hlog])
      · exact k2 j hj
    · intro e he
      rcases k3 e he with h | h
      · rw [hlog] at h
        rcases List.mem_append.mp h with h | h
        · exact Or.inl h
        · rcases List.mem_cons.mp h with rfl | h
          · exact Or.inr (Or.inl ⟨_, rfl⟩)
          · exact Or.inr (hadded e h)
      · exact Or.inr h

/-- The three point lists and the counter after `n` iterations of the loop. -/
theorem pair_loop_points (v : Vision) (log : List Event) (n : Nat) :
    (loop v log n).imagePointsLeft
        = ((List.range' 457 n).filter (validPair v)).map (fun i => (detectL v i).2)
    ∧ (loop v log n).imagePointsRight
        = ((List.range' 457 n).filter (validPair v)).map (fun i => (detectR v i).2)
    ∧ (loop v log n).objectPoints
        = ((List.range' 457 n).filter (validPair v)).map (fun _ => checkerboardPattern)
    ∧ (loop v log n).validPairs = (((List.range' 457 n).filter (validPair v)).length : Int) := by
  simpa [init] using pair_foldl_points v (List.range' 457 n) (init log)

end stereoCalibratePair

/-! ## Skip-and-continue and the matched-pairs invariant -/

/-- C4: in both collection loops an index whose left or right image does not
load leaves every point list as it was; the loop goes on through all of
457..475, reading the left image of each; and on exit the lists hold, in
increasing index order, exactly the corner sets of the valid pairs. -/
theorem collection_loops_skip_and_continue (v : Vision) (log : List Event) :
    List.range' 457 (476 - 457)
      = [457, 458, 459, 460, 461, 462, 463, 464, 465, 466, 467, 468, 469, 470, 471, 472,
          473, 474, 475]
    ∧ (∀ s i, calibrateBothSets.loaded v i = false →
        (calibrateBothSets.body v s i).imagePointsLeft = s.imagePointsLeft
        ∧ (calibrateBothSets.body v s i).imagePointsRight = s.imagePointsRight
        ∧ (calibrateBothSets.body v s i).objectPointsLeft = s.objectPointsLeft
        ∧ (calibrateBothSets.body v s i).objectPointsRight = s.objectPointsRight)
    ∧ (∀ i, 457 ≤ i → i ≤ 475 →
        Event.imread (fnameL i) ∈ (calibrateBothSets.loop v (476 - 457)).log)
    ∧ (calibrateBothSets.loop v (476 - 457)).imagePointsLeft
        = ((List.range' 457 (476 - 457)).filter (calibrateBothSets.validPair v)).map
            (calibrateBothSets.cornersL v)
    ∧ (calibrateBothSets.loop v (476 - 457)).imagePointsRight
        = ((List.range' 457 (476 - 457)).filter (calibrateBothSets.validPair v)).map
            (calibrateBothSets.cornersR v)
    ∧ (calibrateBothSets.loop v (476 - 457)).objectPointsLeft
        = ((List.range' 457 (476 - 457)).filter (calibrateBothSets.validPair v)).map
            (fun _ => calibrateBothSets.checkerboardPattern)
    ∧ (calibrateBothSets.loop v (476 - 457)).objectPointsRight
        = ((List.range' 457 (476 - 457)).filter (calibrateBothSets.validPair v)).map
            (fun _ => calibrateBothSets.checkerboardPattern)
    ∧ (∀ s i, stereoCalibratePair.loaded v i = false →
        (stereoCalibratePair.body v s i).imagePointsLeft = s.imagePointsLeft
        ∧ (stereoCalibratePair.body v s i).imagePointsRight = s.imagePointsRight
        ∧ (stereoCalibratePair.body v s i).objectPoints = s.objectPoints
        ∧ (stereoCalibratePair.body v s i).validPairs = s.validPairs)
    ∧ (∀ i, 457 ≤ i → i ≤ 475 →
        Event.imread (fnameL i) ∈ (stereoCalibratePair.loop v log (476 - 457)).log)
    ∧ (stereoCalibratePair.loop v log (476 - 457)).imagePointsLeft
        = ((List.range' 457 (476 - 457)).filter (stereoCalibratePair.validPair v)).map
            (fun i => (stereoCalibratePair.detectL v i).2)
    ∧ (stereoCalibratePair.loop v log (476 - 457)).imagePointsRight
        = ((List.range' 457 (476 - 457)).filter (stereoCalibratePair.validPair v)).map
            (fun i => (stereoCalibratePair.detectR v i).2)
    ∧ (stereoCalibratePair.loop v log (476 - 457)).objectPoints
        = ((List.range' 457 (476 - 457)).filter (stereoCalibratePair.validPair v)).map
            (fun _ => stereoCalibratePair.checkerboardPattern) := by
  have hc := calibrateBothSets.both_foldl_points v (List.range' 457 (476 - 457))
    calibrateBothSets.init
  have hs := stereoCalibratePair.pair_foldl_points v (List.range' 457 (476 - 457))
    (stereoCalibratePair.init log)
  have hcl := calibrateBothSets.both_foldl_log v (List.range' 457 (476 - 457))
    calibrateBothSets.init
  have hsl := stereoCalibratePair.pair_foldl_log v (List.range' 457 (476 - 457))
    (stereoCalibratePair.init log)
  have hmem : ∀ i, 457 ≤ i → i ≤ 475 → i ∈ List.range' 457 (476 - 457) := by
    intro i h1 h2
    rw [List.mem_range'_1]
    omega
  refine ⟨by decide, ?_, fun i h1 h2 => hcl.2.1 i (hmem i h1 h2), ?_, ?_, ?_, ?_, ?_,
    fun i h1 h2 => hsl.2.1 i (hmem i h1 h2), ?_, ?_, ?_⟩
  · intro s i hl
    have hb := calibrateBothSets.both_body_points v s i
    simpa [calibrateBothSets.validPair, hl] using hb
  · simpa [calibrateBothSets.init] using hc.1
  · simpa [calibrateBothSets.init] using hc.2.1
  · simpa [calibrateBothSets.init] using hc.2.2.1
  · simpa [calibrateBothSets.init] using hc.2.2.2
  · intro s i hl
    have hb := stereoCalibratePair.pair_body_points v s i
    simpa [stereoCalibratePair.validPair, hl] using hb
  · simpa [stereoCalibratePair.init] using hs.1
  · simpa [stereoCalibratePair.init] using hs.2.1
  · simpa [stereoCalibratePair.init] using hs.2.2.1

/-- C9: after each of the 19 iterations of either collection loop the point
lists have one common length, at most the number of iterations done and so at
most 19; every object-point entry is the 50-point checkerboard model; in
`stereoCalibratePair` the counter `validPairs` equals that length; and an
iteration in which a detection fails stores nothing. -/
theorem collection_loops_matched_pairs (v : Vision) (log : List Event) (n : Nat)
    (hn : n ≤ 476 - 457) :
    ((calibrateBothSets.loop v n).imagePointsRight.length
        = (calibrateBothSets.loop v n).imagePointsLeft.length
      ∧ (calibrateBothSets.loop v n).objectPointsLeft.length
        = (calibrateBothSets.loop v n).imagePointsLeft.length
      ∧ (calibrateBothSets.loop v n).objectPointsRight.length
        = (calibrateBothSets.loop v n).imagePointsLeft.length
      ∧ (calibrateBothSets.loop v n).imagePointsLeft.length ≤ n
      ∧ (calibrateBothSets.loop v n).imagePointsLeft.length ≤ 19
      ∧ (∀ o ∈ (calibrateBothSets.loop v n).objectPointsLeft,
          o = calibrateBothSets.checkerboardPattern ∧ o.length = 50)
      ∧ (∀ o ∈ (calibrateBothSets.loop v n).objectPointsRight,
          o = calibrateBothSets.checkerboardPattern ∧ o.length = 50))
    ∧ ((stereoCalibratePair.loop v log n).imagePointsRight.length
        = (stereoCalibratePair.loop v log n).imagePointsLeft.length
      ∧ (stereoCalibratePair.loop v log n).objectPoints.length
        = (stereoCalibratePair.loop v log n).imagePointsLeft.length
      ∧ (stereoCalibratePair.loop v log n).validPairs
        = ((stereoCalibratePair.loop v log n).imagePointsLeft.length : Int)
      ∧ (stereoCalibratePair.loop v log n).imagePointsLeft.length ≤ n
      ∧ (stereoCalibratePair.loop v log n).imagePointsLeft.length ≤ 19
      ∧ (∀ o ∈ (stereoCalibratePair.loop v log n).objectPoints,
          o = stereoCalibratePair.checkerboardPattern ∧ o.length = 50))
    ∧ (∀ s i, (calibrateBothSets.detectL v i).1 = false
          ∨ (calibrateBothSets.detectR v i).1 = false →
        (calibrateBothSets.body v s i).imagePointsLeft = s.imagePointsLeft
        ∧ (calibrateBothSets.body v s i).imagePointsRight = s.imagePointsRight
        ∧ (calibrateBothSets.body v s i).objectPointsLeft = s.objectPointsLeft
        ∧ (calibrateBothSets.body v s i).objectPointsRight = s.objectPointsRight)
    ∧ (∀ s i, (stereoCalibratePair.detectL v i).1 = false
          ∨ (stereoCalibratePair.detectR v i).1 = false →
        (stereoCalibratePair.body v s i).imagePointsLeft = s.imagePointsLeft
        ∧ (stereoCalibratePair.body v s i).imagePointsRight = s.imagePointsRight
        ∧ (stereoCalibratePair.body v s i).objectPoints = s.objectPoints
        ∧ (stereoCalibratePair.body v s i).validPairs = s.validPairs) := by
  obtain ⟨c1, c2, c3, c4⟩ := calibrateBothSets.both_loop_points v n
  obtain ⟨s1, s2, s3, s4⟩ := stereoCalibratePair.pair_loop_points v log n
  have hcn : ((List.range' 457 n).filter (calibrateBothSets.validPair v)).length ≤ n := by
    simpa using List.length_filter_le (calibrateBothSets.validPair v) (List.range' 457 n)
  have hsn : ((List.range' 457 n).filter (stereoCalibratePair.validPair v)).length ≤ n := by
    simpa using List.length_filter_le (stereoCalibratePair.validPair v) (List.range' 457 n)
  have hc50 : calibrateBothSets.checkerboardPattern.length = 50 := by decide
  have hs50 : stereoCalibratePair.checkerboardPattern.length = 50 := by decide
  have hn19 : n ≤ 19 := hn
  refine ⟨?_, ?_, ?_, ?_⟩
  · rw [c1, c2, c3, c4]
    refine ⟨by simp, by simp, by simp, by simpa using hcn, by simpa using hcn.trans hn19, ?_, ?_⟩
      <;> intro o ho <;> simp at ho <;> obtain ⟨_, _, rfl⟩ := ho <;> exact ⟨rfl, hc50⟩
  · rw [s1, s2, s3, s4]
    refine ⟨by simp, by simp, by simp, by simpa using hsn, by simpa using hsn.trans hn19, ?_⟩
    intro o ho
    simp at ho
    obtain ⟨_, _, rfl⟩ := ho
    exact ⟨rfl, hs50⟩
  · intro s i hf
    have hb := calibrateBothSets.both_body_points v s i
    have hv : calibrateBothSets.validPair v i = false := by
      rcases hf with hf | hf <;> simp [calibrateBothSets.validPair, hf]
    simpa [hv] using hb
  · intro s i hf
    have hb := stereoCalibratePair.pair_body_points v s i
    have hv : stereoCalibratePair.validPair v i = false := by
      rcases hf with hf | hf <;> simp [stereoCalibratePair.validPair, hf]
    simpa [hv] using hb

/-- C9 at a sample input: all 19 iterations with a library in which every
pair is valid. -/
theorem collection_loops_matched_pairs_witness :
    19 ≤ 476 - 457
    ∧ (calibrateBothSets.loop sampleVision 19).imagePointsRight.length
        = (calibrateBothSets.loop sampleVision 19).imagePointsLeft.length
    ∧ (stereoCalibratePair.loop sampleVision [] 19).validPairs
        = ((stereoCalibratePair.loop sampleVision [] 19).imagePointsLeft.length : Int) :=
  ⟨by decide,
    (collection_loops_matched_pairs sampleVision [] 19 (by decide)).1.1,
    (collection_loops_matched_pairs sampleVision [] 19 (by decide)).2.1.2.2.1⟩

/-! ## Rejection on too few pairs -/

/-- A loop line is neither the pair-count error, nor a library call, nor a
file operation. -/
theorem LoopLine.not_other {e : Event} (h : LoopLine e) :
    e ≠ Event.cerr "Not enough valid checkerboard detections for reliable stereo calibration.\n"
    ∧ (∀ a b c K1 d1 K2 d2, e ≠ Event.stereoCalibrate a b c K1 d1 K2 d2)
    ∧ (∀ q ok, e ≠ Event.openWrite q ok)
    ∧ (∀ q k m, e ≠ Event.write q k m) := by
  rcases h with ⟨q, rfl⟩ | ⟨i, rfl⟩ | ⟨i, rfl⟩ | ⟨m, rfl⟩
  · simp
  · refine ⟨?_, by simp, by simp, by simp⟩
    intro h
    have := congrArg String.data (Event.cerr.inj h)
    simp [String.data_append] at this
  · refine ⟨?_, by simp, by simp, by simp⟩
    intro h
    have := congrArg String.data (Event.cerr.inj h)
    simp [String.data_append] at this
  · simp

namespace stereoCalibratePair

/-- With fewer than 5 stored pairs the routine ends at the pair-count check. -/
theorem finish_few (v : Vision) (d : Disk) (KL dL KR dR : Mat) (s : Loop)
    (h : s.objectPoints.length < 5) :
    (finish v d KL dL KR dR s).ret = -1
    ∧ (finish v d KL dL KR dR s).disk = d
    ∧ (finish v d KL dL KR dR s).log = s.log ++
        [ Event.cout "Total valid stereo pairs: ", Event.coutNum s.validPairs, Event.cout "\n",
          Event.cerr
            "Not enough valid checkerboard detections for reliable stereo calibration.\n" ] := by
  simp [finish, h]

/-- With 5 or more stored pairs the routine runs the stereo calibration and
then tries to write the stereo file. -/
theorem finish_enough (v : Vision) (d : Disk) (KL dL KR dR : Mat) (s : Loop)
    (h : 5 ≤ s.objectPoints.length) :
    (finish v d KL dL KR dR s).ret = (if d.writable "stereo_calibration.yml" then 0 else -1)
    ∧ (finish v d KL dL KR dR s).disk.writable = d.writable
    ∧ (finish v d KL dL KR dR s).disk.files =
        (if d.writable "stereo_calibration.yml" then
          fun q => if q = "stereo_calibration.yml" then
            some
              [ ("RotationMatrix", (v.stereoCalibrate s.objectPoints s.imagePointsLeft
                  s.imagePointsRight KL dL KR dR imageSize).R),
                ("TranslationVector", (v.stereoCalibrate s.objectPoints s.imagePointsLeft
                  s.imagePointsRight KL dL KR dR imageSize).T),
                ("EssentialMatrix", (v.stereoCalibrate s.objectPoints s.imagePointsLeft
                  s.imagePointsRight KL dL KR dR imageSize).E),
                ("FundamentalMatrix", (v.stereoCalibrate s.objectPoints s.imagePointsLeft
                  s.imagePointsRight KL dL KR dR imageSize).F) ]
            else d.files q
        else d.files)
    ∧ ∃ rest, (finish v d KL dL KR dR s).log = s.log ++
        [ Event.cout "Total valid stereo pairs: ", Event.coutNum s.validPairs, Event.cout "\n",
          Event.stereoCalibrate s.objectPoints s.imagePointsLeft s.imagePointsRight
            KL dL KR dR ] ++ rest
      ∧ Event.cerr "Not enough valid checkerboard detections for reliable stereo calibration.\n"
          ∉ rest
      ∧ (d.writable "stereo_calibration.yml" = true →
          Event.write "stereo_calibration.yml" "RotationMatrix"
              (v.stereoCalibrate s.objectPoints s.imagePointsLeft
                s.imagePointsRight KL dL KR dR imageSize).R ∈ rest
          ∧ Event.write "stereo_calibration.yml" "TranslationVector"
              (v.stereoCalibrate s.objectPoints s.imagePointsLeft
                s.imagePointsRight KL dL KR dR imageSize).T ∈ rest)
      ∧ (∀ q k m, Event.write q k m ∈ rest → q = "stereo_calibration.yml" ∧
          ((k = "RotationMatrix" ∧ m = (v.stereoCalibrate s.objectPoints s.imagePointsLeft
                s.imagePointsRight KL dL KR dR imageSize).R)
            ∨ (k = "TranslationVector" ∧ m = (v.stereoCalibrate s.objectPoints
                s.imagePointsLeft s.imagePointsRight KL dL KR dR imageSize).T)
            ∨ k = "EssentialMatrix" ∨ k = "FundamentalMatrix")) := by
  have h5 : ¬ s.objectPoints.length < 5 := by omega
  have hne : s.objectPoints.isEmpty = false := by
    cases hs : s.objectPoints with
    | nil => simp [hs] at h
    | cons a l => rfl
  cases hw : d.writable "stereo_calibration.yml"
  · simp [finish, h5, hne, FileStorage.openWrite, hw]
  · refine ⟨?_, ?_, ?_, ?_⟩
    · simp [finish, h5, hne, FileStorage.openWrite, hw]
    · simp [finish, h5, hne, FileStorage.openWrite, hw, FileStorage.write,
        FileStorage.release, Disk.store]
    · funext q
      simp [finish, h5, hne, FileStorage.openWrite, hw, FileStorage.write,
        FileStorage.release, Disk.store]
      split_ifs <;> rfl
    · simp [finish, h5, hne, FileStorage.openWrite, hw, FileStorage.write,
        FileStorage.release, Disk.store, FileStorage.writeLog]
      intro q k m hq
      rcases hq with ⟨h1, h2, h3⟩ | ⟨h1, h2, h3⟩ | ⟨h1, h2, h3⟩ | ⟨h1, h2, h3⟩ <;>
        simp [h1, h2, h3]

end stereoCalibratePair

/-- C3: when both intrinsic files open, fewer than 5 valid pairs make
`stereoCalibratePair` return -1 at the pair-count check, with the disk as it
was, no stereo calibration run and no file opened for writing or written;
with 5 or more valid pairs the pair-count error is not raised and the stereo
calibration is run. -/
theorem stereoCalibratePair_rejects_few_pairs (v : Vision) (d : Disk)
    (hL : (d.files "left_camera_calibration.yml").isSome = true)
    (hR : (d.files "right_camera_calibration.yml").isSome = true) :
    (((List.range' 457 (476 - 457)).filter (stereoCalibratePair.validPair v)).length < 5 →
        (stereoCalibratePair v d).ret = -1
        ∧ (stereoCalibratePair v d).log.getLast? = some (Event.cerr
            "Not enough valid checkerboard detections for reliable stereo calibration.\n")
        ∧ (∀ a b c K1 d1 K2 d2,
            Event.stereoCalibrate a b c K1 d1 K2 d2 ∉ (stereoCalibratePair v d).log)
        ∧ (∀ q ok, Event.openWrite q ok ∉ (stereoCalibratePair v d).log)
        ∧ (∀ q k m, Event.write q k m ∉ (stereoCalibratePair v d).log)
        ∧ (stereoCalibratePair v d).disk = d)
    ∧ (5 ≤ ((List.range' 457 (476 - 457)).filter (stereoCalibratePair.validPair v)).length →
        Event.cerr "Not enough valid checkerboard detections for reliable stereo calibration.\n"
          ∉ (stereoCalibratePair v d).log
        ∧ ∃ a b c K1 d1 K2 d2,
            Event.stereoCalibrate a b c K1 d1 K2 d2 ∈ (stereoCalibratePair v d).log) := by
  obtain ⟨docL, hdL⟩ := Option.isSome_iff_exists.mp hL
  obtain ⟨docR, hdR⟩ := Option.isSome_iff_exists.mp hR
  simp only [stereoCalibratePair, FileStorage.openRead, hdL, hdR, Bool.not_true,
    Bool.false_eq_true, if_false]
  generalize readMat (FileStorage.node ⟨"left_camera_calibration.yml", true, docL⟩
    "CameraMatrix") Mat.nil = KL
  generalize readMat (FileStorage.node ⟨"left_camera_calibration.yml", true, docL⟩
    "DistCoeffs") Mat.nil = dL
  generalize readMat (FileStorage.node ⟨"right_camera_calibration.yml", true, docR⟩
    "CameraMatrix") Mat.nil = KR
  generalize readMat (FileStorage.node ⟨"right_camera_calibration.yml", true, docR⟩
    "DistCoeffs") Mat.nil = dR
  generalize hs : stereoCalibratePair.loop v _ (476 - 457) = s
  have hlen : s.objectPoints.length
      = ((List.range' 457 (476 - 457)).filter (stereoCalibratePair.validPair v)).length := by
    rw [← hs, (stereoCalibratePair.pair_loop_points v _ _).2.2.1, List.length_map]
  have hlog : ∀ e ∈ s.log, (∃ q ok, e = Event.openRead q ok) ∨ (∃ m, e = Event.coutMat m)
      ∨ LoopLine e := by
    intro e he
    rw [← hs] at he
    rcases (stereoCalibratePair.pair_foldl_log v _ _).2.2 e he with h | h
    · simp only [stereoCalibratePair.init, List.mem_append, List.mem_cons,
        List.mem_singleton, List.not_mem_nil, or_false] at h
      rcases h with (h | h) | h | h | h | h | h | h | h
      all_goals first
        | exact Or.inl ⟨_, _, h⟩
        | exact Or.inr (Or.inl ⟨_, h⟩)
        | exact Or.inr (Or.inr (Or.inr (Or.inr (Or.inr ⟨_, h⟩))))
    · exact Or.inr (Or.inr h)
  have hnot : ∀ e ∈ s.log,
      e ≠ Event.cerr
        "Not enough valid checkerboard detections for reliable stereo calibration.\n"
      ∧ (∀ a b c K1 d1 K2 d2, e ≠ Event.stereoCalibrate a b c K1 d1 K2 d2)
      ∧ (∀ q ok, e ≠ Event.openWrite q ok)
      ∧ (∀ q k m, e ≠ Event.write q k m) := by
    intro e he
    rcases hlog e he with ⟨q, ok, rfl⟩ | ⟨m, rfl⟩ | h
    · simp
    · simp
    · exact h.not_other
  constructor
  · intro hk
    obtain ⟨h1, h2, h3⟩ := stereoCalibratePair.finish_few v d KL dL KR dR s (hlen ▸ hk)
    refine ⟨h1, by simp [h3], ?_, ?_, ?_, h2⟩
    · intro a b c K1 d1 K2 d2 hmem
      rw [h3] at hmem
      simp only [List.mem_append, List.mem_cons, List.mem_singleton, List.not_mem_nil,
        or_false, reduceCtorEq] at hmem
      exact (hnot _ hmem).2.1 a b c K1 d1 K2 d2 rfl
    · intro q ok hmem
      rw [h3] at hmem
      simp only [List.mem_append, List.mem_cons, List.mem_singleton, List.not_mem_nil,
        or_false, reduceCtorEq] at hmem
      exact (hnot _ hmem).2.2.1 q ok rfl
    · intro q k m hmem
      rw [h3] at hmem
      simp only [List.mem_append, List.mem_cons, List.mem_singleton, List.not_mem_nil,
        or_false, reduceCtorEq] at hmem
      exact (hnot _ hmem).2.2.2 q k m rfl
  · intro hk
    obtain ⟨-, -, -, rest, h4, h5, -⟩ :=
      stereoCalibratePair.finish_enough v d KL dL KR dR s (hlen ▸ hk)
    refine ⟨?_, s.objectPoints, s.imagePointsLeft, s.imagePointsRight, KL, dL, KR, dR,
      by simp [h4]⟩
    intro hmem
    rw [h4] at hmem
    simp only [List.mem_append, List.mem_cons, List.mem_singleton, List.not_mem_nil,
      or_false, reduceCtorEq] at hmem
    rcases hmem with hmem | hmem
    · exact (hnot _ hmem).1 rfl
    · exact h5 hmem

/-- C3 at a sample input: both intrinsic files are present and no image
loads, so there are no valid pairs and the routine returns -1. -/
theorem stereoCalibratePair_rejects_few_pairs_witness :
    (calibratedDisk.files "left_camera_calibration.yml").isSome = true
    ∧ (calibratedDisk.files "right_camera_calibration.yml").isSome = true
    ∧ ((List.range' 457 (476 - 457)).filter (stereoCalibratePair.validPair blindVision)).length
        < 5
    ∧ (stereoCalibratePair blindVision calibratedDisk).ret = -1 :=
  ⟨by decide, by decide, by decide,
    ((stereoCalibratePair_rejects_few_pairs blindVision calibratedDisk (by decide)
      (by decide)).1 (by decide)).1⟩

/-! ## The rectification routine and the stereo demo -/

/-- C1 at a sample input: six different matrices written to a writable path
of an empty disk come back in their own slots. -/
theorem saveStereoCalibration_readStereoCalibration_roundtrip_witness :
    blankDisk.writable "calibration.yml" = true
    ∧ readStereoCalibration
        (saveStereoCalibration blankDisk "calibration.yml" ⟨1, 1, [1]⟩ ⟨1, 1, [2]⟩ ⟨1, 1, [3]⟩
          ⟨1, 1, [4]⟩ ⟨1, 1, [5]⟩ ⟨1, 1, [6]⟩)
        "calibration.yml" ⟨Mat.nil, Mat.nil, Mat.nil, Mat.nil, Mat.nil, Mat.nil⟩
      = ⟨⟨1, 1, [1]⟩, ⟨1, 1, [2]⟩, ⟨1, 1, [3]⟩, ⟨1, 1, [4]⟩, ⟨1, 1, [5]⟩, ⟨1, 1, [6]⟩⟩ :=
  ⟨rfl, saveStereoCalibration_readStereoCalibration_roundtrip blankDisk "calibration.yml"
    ⟨1, 1, [1]⟩ ⟨1, 1, [2]⟩ ⟨1, 1, [3]⟩ ⟨1, 1, [4]⟩ ⟨1, 1, [5]⟩ ⟨1, 1, [6]⟩ _ rfl⟩

/-- C6: `stereoRectifyAndDisplay` returns -1 exactly when one of the three
calibration files does not open or one of the two images of the picked index
does not load, and 0 otherwise.  The files are tried in the order left,
right, stereo; at the first that does not open the routine stops, having
opened no later file, rectified nothing and read no image. -/
theorem stereoRectifyAndDisplay_returns (v : Vision) (d : Disk) (gen : Nat) :
    ((stereoRectifyAndDisplay v d gen).ret = -1 ↔
        (d.files "left_camera_calibration.yml" = none
          ∨ d.files "right_camera_calibration.yml" = none
          ∨ d.files "stereo_calibration.yml" = none
          ∨ (v.imread (fnameL (stereoRectifyAndDisplay.distrib gen))).empty = true
          ∨ (v.imread (fnameR (stereoRectifyAndDisplay.distrib gen))).empty = true))
    ∧ ((stereoRectifyAndDisplay v d gen).ret = 0 ↔
        ¬ (d.files "left_camera_calibration.yml" = none
          ∨ d.files "right_camera_calibration.yml" = none
          ∨ d.files "stereo_calibration.yml" = none
          ∨ (v.imread (fnameL (stereoRectifyAndDisplay.distrib gen))).empty = true
          ∨ (v.imread (fnameR (stereoRectifyAndDisplay.distrib gen))).empty = true))
    ∧ (457 ≤ stereoRectifyAndDisplay.distrib gen ∧ stereoRectifyAndDisplay.distrib gen ≤ 475)
    ∧ (d.files "left_camera_calibration.yml" = none →
        (stereoRectifyAndDisplay v d gen).log =
          [ Event.openRead "left_camera_calibration.yml" false,
            Event.cerr "Error: Could not open left_camera_calibration.yml\n" ])
    ∧ (d.files "left_camera_calibration.yml" ≠ none →
        d.files "right_camera_calibration.yml" = none →
        (stereoRectifyAndDisplay v d gen).log =
          [ Event.openRead "left_camera_calibration.yml" true,
            Event.openRead "right_camera_calibration.yml" false,
            Event.cerr "Error: Could not open right_camera_calibration.yml\n" ])
    ∧ (d.files "left_camera_calibration.yml" ≠ none →
        d.files "right_camera_calibration.yml" ≠ none →
        d.files "stereo_calibration.yml" = none →
        (stereoRectifyAndDisplay v d gen).log =
          [ Event.openRead "left_camera_calibration.yml" true,
            Event.openRead "right_camera_calibration.yml" true,
            Event.openRead "stereo_calibration.yml" false,
            Event.cerr "Error: Could not open stereo_calibration.yml\n" ]) := by
  have hd : 457 ≤ stereoRectifyAndDisplay.distrib gen
      ∧ stereoRectifyAndDisplay.distrib gen ≤ 475 := by
    unfold stereoRectifyAndDisplay.distrib
    omega
  refine ⟨?_, ?_, hd, ?_, ?_, ?_⟩
  all_goals
    cases hl : d.files "left_camera_calibration.yml" <;>
    cases hr : d.files "right_camera_calibration.yml" <;>
    cases hs : d.files "stereo_calibration.yml" <;>
    cases hiL : (v.imread (fnameL (stereoRectifyAndDisplay.distrib gen))).empty <;>
    cases hiR : (v.imread (fnameR (stereoRectifyAndDisplay.distrib gen))).empty <;>
    simp [stereoRectifyAndDisplay, FileStorage.openRead, hl, hr, hs, hiL, hiR]

/-- C5: the stereo demo makes no check of its inputs.  With two images that
do not load and no calibration file, its log up to the first library call
after the reads holds the two image reads, the failed open of the
calibration file, the printing of six empty matrices and then the
rectification call on those six empty matrices; no error line comes before
that call, and the value `main` returns is not -1.  What the library does
with six empty matrices lies outside the repository. -/
theorem stereo_main_rectifies_unread_inputs :
    (blindVision.imread "left.png").empty = true
    ∧ (blindVision.imread "right.png").empty = true
    ∧ blankDisk.files "calibration.yml" = none
    ∧ (stereo.main blindVision blankDisk "left.png" "right.png" "calibration.yml").log.take 16
        = [ Event.imread "left.png", Event.imread "right.png",
            Event.openRead "calibration.yml" false,
            Event.cout "K1", Event.coutMat Mat.nil, Event.cout "d1", Event.coutMat Mat.nil,
            Event.cout "K2", Event.coutMat Mat.nil, Event.cout "d2", Event.coutMat Mat.nil,
            Event.cout "R", Event.coutMat Mat.nil, Event.cout "t", Event.coutMat Mat.nil,
            Event.stereoRectify Mat.nil Mat.nil Mat.nil Mat.nil Mat.nil Mat.nil ]
    ∧ (stereo.main blindVision blankDisk "left.png" "right.png" "calibration.yml").ret ≠ -1 := by
  decide

/-! ## From the calibration run to the rectification run -/

/-- A loop line is not a written record. -/
theorem LoopLine.not_write {e : Event} (h : LoopLine e) (q k : String) (m : Mat) :
    e ≠ Event.write q k m := by
  rcases h with ⟨_, rfl⟩ | ⟨_, rfl⟩ | ⟨_, rfl⟩ | ⟨_, rfl⟩ <;> simp

/-- What `calibrateBothSets` leaves behind when it returns 0: each of the
two files that could be opened holds the camera matrix and the distortion
coefficients computed for its camera, and the written records are those. -/
theorem calibrateBothSets_ret_zero (v : Vision) (d : Disk)
    (h : (calibrateBothSets v d).ret = 0) :
    ∃ KL dL KR dR,
      (calibrateBothSets v d).disk.writable = d.writable
      ∧ (calibrateBothSets v d).disk.files =
          (fun q =>
            if q = "right_camera_calibration.yml"
                ∧ d.writable "right_camera_calibration.yml" = true then
              some [("CameraMatrix", KR), ("DistCoeffs", dR)]
            else if q = "left_camera_calibration.yml"
                ∧ d.writable "left_camera_calibration.yml" = true then
              some [("CameraMatrix", KL), ("DistCoeffs", dL)]
            else d.files q)
      ∧ (∀ q k m, Event.write q k m ∈ (calibrateBothSets v d).log ↔
          (q = "left_camera_calibration.yml" ∧ d.writable "left_camera_calibration.yml" = true
            ∧ (k = "CameraMatrix" ∧ m = KL ∨ k = "DistCoeffs" ∧ m = dL))
          ∨ (q = "right_camera_calibration.yml"
            ∧ d.writable "right_camera_calibration.yml" = true
            ∧ (k = "CameraMatrix" ∧ m = KR ∨ k = "DistCoeffs" ∧ m = dR))) := by
  unfold calibrateBothSets at h ⊢
  have hlog := (calibrateBothSets.both_foldl_log v (List.range' 457 (476 - 457))
    calibrateBothSets.init).2.2
  change ∀ e ∈ (calibrateBothSets.loop v (476 - 457)).log, _ at hlog
  generalize calibrateBothSets.loop v (476 - 457) = s at h hlog ⊢
  have hnw : ∀ q k m, Event.write q k m ∉ s.log := by
    intro q k m hmem
    rcases hlog _ hmem with h0 | h0
    · simp [calibrateBothSets.init] at h0
    · exact h0.not_write q k m rfl
  cases hL : s.imagePointsLeft.isEmpty
  · cases hR : s.imagePointsRight.isEmpty
    · refine ⟨(v.calibrateCamera s.objectPointsLeft s.imagePointsLeft
          calibrateBothSets.imageSize).cameraMatrix,
        (v.calibrateCamera s.objectPointsLeft s.imagePointsLeft
          calibrateBothSets.imageSize).distCoeffs,
        (v.calibrateCamera s.objectPointsRight s.imagePointsRight
          calibrateBothSets.imageSize).cameraMatrix,
        (v.calibrateCamera s.objectPointsRight s.imagePointsRight
          calibrateBothSets.imageSize).distCoeffs, ?_, ?_, ?_⟩
      · cases hwl : d.writable "left_camera_calibration.yml" <;>
        cases hwr : d.writable "right_camera_calibration.yml" <;>
        simp [calibrateBothSets.finish, hL, hR, FileStorage.openWrite, FileStorage.write,
          FileStorage.release, Disk.store, hwl, hwr]
      · funext q
        cases hwl : d.writable "left_camera_calibration.yml" <;>
        cases hwr : d.writable "right_camera_calibration.yml" <;>
        simp [calibrateBothSets.finish, hL, hR, FileStorage.openWrite, FileStorage.write,
          FileStorage.release, Disk.store, hwl, hwr] <;>
        split_ifs <;> simp_all
      · intro q k m
        cases hwl : d.writable "left_camera_calibration.yml" <;>
        cases hwr : d.writable "right_camera_calibration.yml" <;>
        simp [calibrateBothSets.finish, hL, hR, FileStorage.openWrite, FileStorage.write,
          FileStorage.release, Disk.store, hwl, hwr, FileStorage.writeLog, hnw] <;>
        tauto
    · simp [calibrateBothSets.finish, hL, hR] at h
  · simp [calibrateBothSets.finish, hL] at h

/-- What `stereoCalibratePair` leaves behind when it returns 0: both
intrinsic files were open, the stereo file could be written and now holds
the four matrices of the stereo calibration under their four keys, and the
written records are those. -/
theorem stereoCalibratePair_ret_zero (v : Vision) (d : Disk)
    (h : (stereoCalibratePair v d).ret = 0) :
    ∃ docL docR R T E F,
      d.files "left_camera_calibration.yml" = some docL
      ∧ d.files "right_camera_calibration.yml" = some docR
      ∧ d.writable "stereo_calibration.yml" = true
      ∧ (stereoCalibratePair v d).disk.writable = d.writable
      ∧ (stereoCalibratePair v d).disk.files =
          (fun q => if q = "stereo_calibration.yml" then
            some [ ("RotationMatrix", R), ("TranslationVector", T), ("EssentialMatrix", E),
              ("FundamentalMatrix", F) ]
            else d.files q)
      ∧ (∀ q k m, Event.write q k m ∈ (stereoCalibratePair v d).log →
          q = "stereo_calibration.yml" ∧ (k = "RotationMatrix" ∧ m = R
            ∨ k = "TranslationVector" ∧ m = T ∨ k = "EssentialMatrix"
            ∨ k = "FundamentalMatrix"))
      ∧ Event.write "stereo_calibration.yml" "RotationMatrix" R ∈ (stereoCalibratePair v d).log
      ∧ Event.write "stereo_calibration.yml" "TranslationVector" T
          ∈ (stereoCalibratePair v d).log
      ∧ (∃ a b c, Event.stereoCalibrate a b c
          ((docL.lookup "CameraMatrix").getD Mat.nil) ((docL.lookup "DistCoeffs").getD Mat.nil)
          ((docR.lookup "CameraMatrix").getD Mat.nil) ((docR.lookup "DistCoeffs").getD Mat.nil)
          ∈ (stereoCalibratePair v d).log) := by
  cases hdL : d.files "left_camera_calibration.yml" with
  | none => simp [stereoCalibratePair, FileStorage.openRead, hdL] at h
  | some docL =>
    cases hdR : d.files "right_camera_calibration.yml" with
    | none => simp [stereoCalibratePair, FileStorage.openRead, hdL, hdR] at h
    | some docR =>
      simp only [stereoCalibratePair, FileStorage.openRead, hdL, hdR, Bool.not_true,
        Bool.false_eq_true, if_false] at h ⊢
      have eKL : readMat (FileStorage.node ⟨"left_camera_calibration.yml", true, docL⟩
          "CameraMatrix") Mat.nil = (docL.lookup "CameraMatrix").getD Mat.nil := by
        simp [FileStorage.node, readMat_eq_getD]
      rw [eKL] at h ⊢
      generalize gKL : (docL.lookup "CameraMatrix").getD Mat.nil = KL at h ⊢
      have edL : readMat (FileStorage.node ⟨"left_camera_calibration.yml", true, docL⟩
          "DistCoeffs") Mat.nil = (docL.lookup "DistCoeffs").getD Mat.nil := by
        simp [FileStorage.node, readMat_eq_getD]
      rw [edL] at h ⊢
      generalize gdL : (docL.lookup "DistCoeffs").getD Mat.nil = dL at h ⊢
      have eKR : readMat (FileStorage.node ⟨"right_camera_calibration.yml", true, docR⟩
          "CameraMatrix") Mat.nil = (docR.lookup "CameraMatrix").getD Mat.nil := by
        simp [FileStorage.node, readMat_eq_getD]
      rw [eKR] at h ⊢
      generalize gKR : (docR.lookup "CameraMatrix").getD Mat.nil = KR at h ⊢
      have edR : readMat (FileStorage.node ⟨"right_camera_calibration.yml", true, docR⟩
          "DistCoeffs") Mat.nil = (docR.lookup "DistCoeffs").getD Mat.nil := by
        simp [FileStorage.node, readMat_eq_getD]
      rw [edR] at h ⊢
      generalize gdR : (docR.lookup "DistCoeffs").getD Mat.nil = dR at h ⊢
      generalize hs : stereoCalibratePair.loop v _ (476 - 457) = s at h ⊢
      have hnw : ∀ q k m, Event.write q k m ∉ s.log := by
        intro q k m hmem
        rw [← hs] at hmem
        rcases (stereoCalibratePair.pair_foldl_log v _ _).2.2 _ hmem with h0 | h0
        · simp [stereoCalibratePair.init] at h0
        · exact h0.not_write q k m rfl
      by_cases hk : s.objectPoints.length < 5
      · rw [(stereoCalibratePair.finish_few v d KL dL KR dR s hk).1] at h
        exact absurd h (by decide)
      · obtain ⟨h1, h2, h3, rest, h4, -, h6, h7⟩ :=
          stereoCalibratePair.finish_enough v d KL dL KR dR s (by omega)
        have hw : d.writable "stereo_calibration.yml" = true := by
          cases hw : d.writable "stereo_calibration.yml"
          · rw [h1, hw] at h
            exact absurd h (by decide)
          · rfl
        refine ⟨docL, docR,
          (v.stereoCalibrate s.objectPoints s.imagePointsLeft s.imagePointsRight KL dL KR dR
            stereoCalibratePair.imageSize).R,
          (v.stereoCalibrate s.objectPoints s.imagePointsLeft s.imagePointsRight KL dL KR dR
            stereoCalibratePair.imageSize).T,
          (v.stereoCalibrate s.objectPoints s.imagePointsLeft s.imagePointsRight KL dL KR dR
            stereoCalibratePair.imageSize).E,
          (v.stereoCalibrate s.objectPoints s.imagePointsLeft s.imagePointsRight KL dL KR dR
            stereoCalibratePair.imageSize).F, rfl, rfl, hw, h2, ?_, ?_, ?_, ?_,
          ⟨s.objectPoints, s.imagePointsLeft, s.imagePointsRight,
            by simp [h4, gKL, gdL, gKR, gdR]⟩⟩
        · rw [h3, if_pos hw]
        · intro q k m hmem
          rw [h4] at hmem
          simp only [List.mem_append, List.mem_cons, List.mem_singleton, List.not_mem_nil,
            or_false, reduceCtorEq, false_or] at hmem
          rcases hmem with hmem | hmem
          · exact absurd hmem (hnw q k m)
          · exact h7 q k m hmem
        · rw [h4]
          exact List.mem_append_right _ (h6 hw).1
        · rw [h4]
          exact List.mem_append_right _ (h6 hw).2

/-- When both calibration routines have returned 0, the rectification
routine loads six matrices `KL dL KR dR R T` such that: every record the
calibration run wrote under a file and key the rectification reads is the
matrix loaded from there; `R` and `T` were written to the stereo file by
`stereoCalibratePair`; `KL`, `dL` (and `KR`, `dR`) were written to the left
(right) intrinsic file by `calibrateBothSets` whenever that file could be
opened for writing; and `stereoCalibratePair` itself consumed the same four
intrinsic matrices. -/
theorem calibration_records_consumed (v : Vision) (d : Disk) (gen : Nat)
    (h1 : (calibrateBothSets v d).ret = 0)
    (h2 : (stereoCalibratePair v (calibrateBothSets v d).disk).ret = 0) :
    ∃ KL dL KR dR R T,
      Event.stereoRectify KL dL KR dR R T ∈
        (stereoRectifyAndDisplay v
          (stereoCalibratePair v (calibrateBothSets v d).disk).disk gen).log
      ∧ (∃ a b c, Event.stereoCalibrate a b c KL dL KR dR ∈
          (stereoCalibratePair v (calibrateBothSets v d).disk).log)
      ∧ (∀ m, Event.write "left_camera_calibration.yml" "CameraMatrix" m ∈
          (calibrateBothSets v d).log ++ (stereoCalibratePair v (calibrateBothSets v d).disk).log
          → m = KL)
      ∧ (∀ m, Event.write "left_camera_calibration.yml" "DistCoeffs" m ∈
          (calibrateBothSets v d).log ++ (stereoCalibratePair v (calibrateBothSets v d).disk).log
          → m = dL)
      ∧ (∀ m, Event.write "right_camera_calibration.yml" "CameraMatrix" m ∈
          (calibrateBothSets v d).log ++ (stereoCalibratePair v (calibrateBothSets v d).disk).log
          → m = KR)
      ∧ (∀ m, Event.write "right_camera_calibration.yml" "DistCoeffs" m ∈
          (calibrateBothSets v d).log ++ (stereoCalibratePair v (calibrateBothSets v d).disk).log
          → m = dR)
      ∧ (∀ m, Event.write "stereo_calibration.yml" "RotationMatrix" m ∈
          (calibrateBothSets v d).log ++ (stereoCalibratePair v (calibrateBothSets v d).disk).log
          → m = R)
      ∧ (∀ m, Event.write "stereo_calibration.yml" "TranslationVector" m ∈
          (calibrateBothSets v d).log ++ (stereoCalibratePair v (calibrateBothSets v d).disk).log
          → m = T)
      ∧ Event.write "stereo_calibration.yml" "RotationMatrix" R
          ∈ (stereoCalibratePair v (calibrateBothSets v d).disk).log
      ∧ Event.write "stereo_calibration.yml" "TranslationVector" T
          ∈ (stereoCalibratePair v (calibrateBothSets v d).disk).log
      ∧ (d.writable "left_camera_calibration.yml" = true →
          Event.write "left_camera_calibration.yml" "CameraMatrix" KL
            ∈ (calibrateBothSets v d).log
          ∧ Event.write "left_camera_calibration.yml" "DistCoeffs" dL
            ∈ (calibrateBothSets v d).log)
      ∧ (d.writable "right_camera_calibration.yml" = true →
          Event.write "right_camera_calibration.yml" "CameraMatrix" KR
            ∈ (calibrateBothSets v d).log
          ∧ Event.write "right_camera_calibration.yml" "DistCoeffs" dR
            ∈ (calibrateBothSets v d).log) := by
  obtain ⟨KL0, dL0, KR0, dR0, -, hf1, hwr1⟩ := calibrateBothSets_ret_zero v d h1
  obtain ⟨docL, docR, R, T, E, F, hdL, hdR, -, -, hf2, hwr2, hR, hT, hsc⟩ :=
    stereoCalibratePair_ret_zero v _ h2
  generalize (stereoCalibratePair v (calibrateBothSets v d).disk).log = log2
    at hwr2 hR hT hsc ⊢
  generalize (stereoCalibratePair v (calibrateBothSets v d).disk).disk = d2 at hf2 ⊢
  generalize (calibrateBothSets v d).log = log1 at hwr1 ⊢
  generalize (calibrateBothSets v d).disk = d1 at hf1 hdL hdR hf2 ⊢
  have hL3 : d2.files "left_camera_calibration.yml" = some docL := by
    rw [hf2]; simpa using hdL
  have hR3 : d2.files "right_camera_calibration.yml" = some docR := by
    rw [hf2]; simpa using hdR
  have hS3 : d2.files "stereo_calibration.yml" = some
      [ ("RotationMatrix", R), ("TranslationVector", T), ("EssentialMatrix", E),
        ("FundamentalMatrix", F) ] := by
    rw [hf2]; simp
  rw [hf1] at hdL hdR
  refine ⟨(docL.lookup "CameraMatrix").getD Mat.nil, (docL.lookup "DistCoeffs").getD Mat.nil,
    (docR.lookup "CameraMatrix").getD Mat.nil, (docR.lookup "DistCoeffs").getD Mat.nil, R, T,
    ?_, hsc, ?_, ?_, ?_, ?_, ?_, ?_, hR, hT, ?_, ?_⟩
  · simp only [stereoRectifyAndDisplay, FileStorage.openRead, hL3, hR3, hS3]
    simp [FileStorage.node, readMat_eq_getD, List.lookup]
    split_ifs <;> simp
  · intro m hm
    rcases List.mem_append.mp hm with hm | hm
    · rcases (hwr1 _ _ _).mp hm with ⟨-, hw, hk⟩ | ⟨hq, -, -⟩
      · simp [hw] at hdL
        subst hdL
        simpa [List.lookup] using hk
      · exact absurd hq (by decide)
    · exact absurd (hwr2 _ _ _ hm).1 (by decide)
  · intro m hm
    rcases List.mem_append.mp hm with hm | hm
    · rcases (hwr1 _ _ _).mp hm with ⟨-, hw, hk⟩ | ⟨hq, -, -⟩
      · simp [hw] at hdL
        subst hdL
        simpa [List.lookup] using hk
      · exact absurd hq (by decide)
    · exact absurd (hwr2 _ _ _ hm).1 (by decide)
  · intro m hm
    rcases List.mem_append.mp hm with hm | hm
    · rcases (hwr1 _ _ _).mp hm with ⟨hq, -, -⟩ | ⟨-, hw, hk⟩
      · exact absurd hq (by decide)
      · simp [hw] at hdR
        subst hdR
        simpa [List.lookup] using hk
    · exact absurd (hwr2 _ _ _ hm).1 (by decide)
  · intro m hm
    rcases List.mem_append.mp hm with hm | hm
    · rcases (hwr1 _ _ _).mp hm with ⟨hq, -, -⟩ | ⟨-, hw, hk⟩
      · exact absurd hq (by decide)
      · simp [hw] at hdR
        subst hdR
        simpa [List.lookup] using hk
    · exact absurd (hwr2 _ _ _ hm).1 (by decide)
  · intro m hm
    rcases List.mem_append.mp hm with hm | hm
    · rcases (hwr1 _ _ _).mp hm with ⟨hq, -, -⟩ | ⟨hq, -, -⟩ <;> exact absurd hq (by decide)
    · simpa using (hwr2 _ _ _ hm).2
  · intro m hm
    rcases List.mem_append.mp hm with hm | hm
    · rcases (hwr1 _ _ _).mp hm with ⟨hq, -, -⟩ | ⟨hq, -, -⟩ <;> exact absurd hq (by decide)
    · simpa using (hwr2 _ _ _ hm).2
  · intro hw
    simp [hw] at hdL
    subst hdL
    exact ⟨(hwr1 _ _ _).mpr (Or.inl ⟨rfl, hw, Or.inl ⟨rfl, by simp [List.lookup]⟩⟩),
      (hwr1 _ _ _).mpr (Or.inl ⟨rfl, hw, Or.inr ⟨rfl, by simp [List.lookup]⟩⟩)⟩
  · intro hw
    simp [hw] at hdR
    subst hdR
    exact ⟨(hwr1 _ _ _).mpr (Or.inr ⟨rfl, hw, Or.inl ⟨rfl, by simp [List.lookup]⟩⟩),
      (hwr1 _ _ _).mpr (Or.inr ⟨rfl, hw, Or.inr ⟨rfl, by simp [List.lookup]⟩⟩)⟩

/-- On an empty, writable disk with a library in which every pair is valid,
both calibration routines return 0 and the rectification loads the matrices
that were computed and written. -/
theorem calibration_records_consumed_witness :
    (calibrateBothSets sampleVision blankDisk).ret = 0
    ∧ (stereoCalibratePair sampleVision (calibrateBothSets sampleVision blankDisk).disk).ret = 0
    ∧ ∃ KL dL KR dR R T,
      Event.stereoRectify KL dL KR dR R T ∈
        (stereoRectifyAndDisplay sampleVision
          (stereoCalibratePair sampleVision
            (calibrateBothSets sampleVision blankDisk).disk).disk 0).log
      ∧ Event.write "stereo_calibration.yml" "RotationMatrix" R
          ∈ (stereoCalibratePair sampleVision (calibrateBothSets sampleVision blankDisk).disk).log
      ∧ Event.write "left_camera_calibration.yml" "CameraMatrix" KL
          ∈ (calibrateBothSets sampleVision blankDisk).log :=
  ⟨by decide, by decide,
    match calibration_records_consumed sampleVision blankDisk 0 (by decide) (by decide) with
    | ⟨KL, dL, KR, dR, R, T, h⟩ =>
      ⟨KL, dL, KR, dR, R, T, h.1, h.2.2.2.2.2.2.2.2.1, (h.2.2.2.2.2.2.2.2.2.2.1 rfl).1⟩⟩

/-- C7: `calibrateBothSets` does not check that its output files opened.
On a disk whose `left_camera_calibration.yml` is a read-only leftover, all
three routines return 0; the calibration run opens the left file without
success and writes six records, none of them to the left file; and the
rectification receives the two leftover matrices, not the camera matrix and
the distortion coefficients that `calibrateBothSets` computed for the left
camera. -/
theorem stale_intrinsics_loaded :
    staleDisk.files "left_camera_calibration.yml"
        = some [("CameraMatrix", ⟨1, 1, [99]⟩), ("DistCoeffs", ⟨1, 1, [98]⟩)]
    ∧ staleDisk.writable "left_camera_calibration.yml" = false
    ∧ (calibrateBothSets sampleVision staleDisk).ret = 0
    ∧ (stereoCalibratePair sampleVision (calibrateBothSets sampleVision staleDisk).disk).ret = 0
    ∧ (stereoRectifyAndDisplay sampleVision
        (stereoCalibratePair sampleVision
          (calibrateBothSets sampleVision staleDisk).disk).disk 0).ret = 0
    ∧ Event.openWrite "left_camera_calibration.yml" false
        ∈ (calibrateBothSets sampleVision staleDisk).log
    ∧ ((calibrateBothSets sampleVision staleDisk).log
        ++ (stereoCalibratePair sampleVision
            (calibrateBothSets sampleVision staleDisk).disk).log).filter Event.isWrite
        = [ Event.write "right_camera_calibration.yml" "CameraMatrix" sampleEye,
            Event.write "right_camera_calibration.yml" "DistCoeffs" sampleDist,
            Event.write "stereo_calibration.yml" "RotationMatrix" sampleEye,
            Event.write "stereo_calibration.yml" "TranslationVector" sampleShift,
            Event.write "stereo_calibration.yml" "EssentialMatrix" sampleEye,
            Event.write "stereo_calibration.yml" "FundamentalMatrix" sampleEye ]
    ∧ Event.stereoRectify ⟨1, 1, [99]⟩ ⟨1, 1, [98]⟩ sampleEye sampleDist sampleEye sampleShift
        ∈ (stereoRectifyAndDisplay sampleVision
            (stereoCalibratePair sampleVision
              (calibrateBothSets sampleVision staleDisk).disk).disk 0).log
    ∧ (sampleVision.calibrateCamera
          (calibrateBothSets.loop sampleVision (476 - 457)).objectPointsLeft
          (calibrateBothSets.loop sampleVision (476 - 457)).imagePointsLeft
          calibrateBothSets.imageSize).cameraMatrix = sampleEye
    ∧ sampleEye ≠ (⟨1, 1, [99]⟩ : Mat) := by
  decide

/-- C8, as stated, fails: after a stereo calibration that returns 0 and
writes a non-empty rotation and translation to `stereo_calibration.yml`,
`readStereoCalibration` applied to that file leaves its `R` and `t` slots
empty. -/
theorem stereo_record_not_read_by_readStereoCalibration :
    (stereoCalibratePair sampleVision calibratedDisk).ret = 0
    ∧ Event.write "stereo_calibration.yml" "RotationMatrix" sampleEye
        ∈ (stereoCalibratePair sampleVision calibratedDisk).log
    ∧ Event.write "stereo_calibration.yml" "TranslationVector" sampleShift
        ∈ (stereoCalibratePair sampleVision calibratedDisk).log
    ∧ sampleEye.empty = false ∧ sampleShift.empty = false
    ∧ (readStereoCalibration (stereoCalibratePair sampleVision calibratedDisk).disk
        "stereo_calibration.yml" ⟨Mat.nil, Mat.nil, Mat.nil, Mat.nil, Mat.nil, Mat.nil⟩).R
        = Mat.nil
    ∧ (readStereoCalibration (stereoCalibratePair sampleVision calibratedDisk).disk
        "stereo_calibration.yml" ⟨Mat.nil, Mat.nil, Mat.nil, Mat.nil, Mat.nil, Mat.nil⟩).t
        = Mat.nil
    ∧ Mat.nil.empty = true := by
  decide

/-- C8, amended: whenever `stereoCalibratePair` returns 0, the file
`stereo_calibration.yml` holds the rotation and the translation it wrote
under the keys `RotationMatrix` and `TranslationVector`, next to
`EssentialMatrix` and `FundamentalMatrix`, and nothing under `K1`, `d1`,
`K2`, `d2`, `R`, `t`; `readStereoCalibration` applied to that file leaves
all six slots empty, whatever they held before.  The file is consumed by
`stereoRectifyAndDisplay`, which reads the two keys: the rotation and the
translation it passes to the rectification are the ones written. -/
theorem stereo_record_keys (v : Vision) (d : Disk) (slots : StereoCalibration) (gen : Nat)
    (h : (stereoCalibratePair v d).ret = 0) :
    ∃ R T E F,
      (stereoCalibratePair v d).disk.files "stereo_calibration.yml" = some
        [ ("RotationMatrix", R), ("TranslationVector", T), ("EssentialMatrix", E),
          ("FundamentalMatrix", F) ]
      ∧ Event.write "stereo_calibration.yml" "RotationMatrix" R ∈ (stereoCalibratePair v d).log
      ∧ Event.write "stereo_calibration.yml" "TranslationVector" T
          ∈ (stereoCalibratePair v d).log
      ∧ readStereoCalibration (stereoCalibratePair v d).disk "stereo_calibration.yml" slots
          = ⟨Mat.nil, Mat.nil, Mat.nil, Mat.nil, Mat.nil, Mat.nil⟩
      ∧ Mat.nil.empty = true
      ∧ (∃ KL dL KR dR, Event.stereoRectify KL dL KR dR R T
          ∈ (stereoRectifyAndDisplay v (stereoCalibratePair v d).disk gen).log)
      ∧ (stereoRectifyAndDisplay v (stereoCalibratePair v d).disk gen).log.take 3
          = [ Event.openRead "left_camera_calibration.yml" true,
              Event.openRead "right_camera_calibration.yml" true,
              Event.openRead "stereo_calibration.yml" true ] := by
  obtain ⟨docL, docR, R, T, E, F, hdL, hdR, -, -, hf2, -, hR, hT, -⟩ :=
    stereoCalibratePair_ret_zero v d h
  have hS : (stereoCalibratePair v d).disk.files "stereo_calibration.yml" = some
      [ ("RotationMatrix", R), ("TranslationVector", T), ("EssentialMatrix", E),
        ("FundamentalMatrix", F) ] := by
    rw [hf2]; simp
  have hL3 : (stereoCalibratePair v d).disk.files "left_camera_calibration.yml"
      = some docL := by
    rw [hf2]; simpa using hdL
  have hR3 : (stereoCalibratePair v d).disk.files "right_camera_calibration.yml"
      = some docR := by
    rw [hf2]; simpa using hdR
  refine ⟨R, T, E, F, hS, hR, hT, ?_, rfl,
    ⟨(docL.lookup "CameraMatrix").getD Mat.nil, (docL.lookup "DistCoeffs").getD Mat.nil,
      (docR.lookup "CameraMatrix").getD Mat.nil, (docR.lookup "DistCoeffs").getD Mat.nil, ?_⟩,
    ?_⟩
  · simp [readStereoCalibration, FileStorage.openRead, hS, FileStorage.node, readMat_eq_getD,
      List.lookup]
  · simp only [stereoRectifyAndDisplay, FileStorage.openRead, hL3, hR3, hS]
    simp [FileStorage.node, readMat_eq_getD, List.lookup]
    split_ifs <;> simp
  · simp only [stereoRectifyAndDisplay, FileStorage.openRead, hL3, hR3, hS]
    simp [FileStorage.node, readMat_eq_getD, List.lookup]
    split_ifs <;> simp

/-- C8 amended, at a sample input: the stereo file written on a disk that
holds both intrinsic files is read back by `readStereoCalibration` as six
empty slots, and `stereoRectifyAndDisplay` passes the written rotation and
translation to the rectification. -/
theorem stereo_record_keys_witness :
    (stereoCalibratePair sampleVision calibratedDisk).ret = 0
    ∧ readStereoCalibration (stereoCalibratePair sampleVision calibratedDisk).disk
        "stereo_calibration.yml" ⟨sampleEye, sampleEye, sampleEye, sampleEye, sampleEye, sampleEye⟩
      = ⟨Mat.nil, Mat.nil, Mat.nil, Mat.nil, Mat.nil, Mat.nil⟩
    ∧ ∃ R T, Event.write "stereo_calibration.yml" "RotationMatrix" R
          ∈ (stereoCalibratePair sampleVision calibratedDisk).log
        ∧ Event.write "stereo_calibration.yml" "TranslationVector" T
          ∈ (stereoCalibratePair sampleVision calibratedDisk).log
        ∧ ∃ KL dL KR dR, Event.stereoRectify KL dL KR dR R T
          ∈ (stereoRectifyAndDisplay sampleVision
              (stereoCalibratePair sampleVision calibratedDisk).disk 7).log :=
  match stereo_record_keys sampleVision calibratedDisk
    ⟨sampleEye, sampleEye, sampleEye, sampleEye, sampleEye, sampleEye⟩ 7 (by decide) with
  | ⟨R, T, _, _, h⟩ => ⟨by decide, h.2.2.2.1, R, T, h.2.1, h.2.2.1, h.2.2.2.2.2.1⟩

/-! ## Return values of the calibration drivers -/

/-- An error line of a collection loop starts with the letter `C`. -/
theorem LoopLine.cerr_head {e : Event} (h : LoopLine e) (m : String)
    (hm : e = Event.cerr m) : m.data.head? = some 'C' := by
  rcases h with ⟨q, rfl⟩ | ⟨i, rfl⟩ | ⟨i, rfl⟩ | ⟨c, rfl⟩
  · simp at hm
  · rw [← Event.cerr.inj hm]
    simp [String.data_append]
  · rw [← Event.cerr.inj hm]
    simp [String.data_append]
  · simp at hm

/-- A loop line opens no file for writing. -/
theorem LoopLine.not_openWrite {e : Event} (h : LoopLine e) (q : String) (ok : Bool) :
    e ≠ Event.openWrite q ok := by
  rcases h with ⟨_, rfl⟩ | ⟨_, rfl⟩ | ⟨_, rfl⟩ | ⟨_, rfl⟩ <;> simp

/-- The log of the collection loop of `calibrateBothSets` holds loop lines
only. -/
theorem calibrateBothSets.both_loop_lines (v : Vision) (n : Nat) :
    ∀ e ∈ (calibrateBothSets.loop v n).log, LoopLine e := by
  intro e he
  rcases (calibrateBothSets.both_foldl_log v (List.range' 457 n)
    calibrateBothSets.init).2.2 e he with h | h
  · simp [calibrateBothSets.init] at h
  · exact h

/-- The left list of `calibrateBothSets` is empty exactly when no index of
the range is a valid pair, and then the right list is empty as well. -/
theorem calibrateBothSets.both_loop_empty (v : Vision) (n : Nat) :
    ((calibrateBothSets.loop v n).imagePointsLeft.isEmpty = true ↔
        ∀ i ∈ List.range' 457 n, calibrateBothSets.validPair v i = false)
    ∧ (calibrateBothSets.loop v n).imagePointsRight.isEmpty
        = (calibrateBothSets.loop v n).imagePointsLeft.isEmpty := by
  obtain ⟨h1, h2, -, -⟩ := calibrateBothSets.both_loop_points v n
  rw [h1, h2]
  constructor
  · simp [List.isEmpty_iff, List.filter_eq_nil_iff]
  · cases hf : (List.range' 457 n).filter (calibrateBothSets.validPair v) <;> simp

/-- C12: `calibrateBothSets` returns -1 exactly when no index of 457..475
is a valid pair (both images load, both detections succeed) and 0 exactly
when some index is; when it returns -1 the disk is as it was and no file
was opened for writing or written. -/
theorem calibrateBothSets_returns (v : Vision) (d : Disk) :
    ((calibrateBothSets v d).ret = -1 ↔
        ∀ i, 457 ≤ i → i ≤ 475 → calibrateBothSets.validPair v i = false)
    ∧ ((calibrateBothSets v d).ret = 0 ↔
        ∃ i, 457 ≤ i ∧ i ≤ 475 ∧ calibrateBothSets.validPair v i = true)
    ∧ ((calibrateBothSets v d).ret = -1 →
        (calibrateBothSets v d).disk = d
        ∧ (∀ q ok, Event.openWrite q ok ∉ (calibrateBothSets v d).log)
        ∧ (∀ q k m, Event.write q k m ∉ (calibrateBothSets v d).log)) := by
  obtain ⟨he, hr⟩ := calibrateBothSets.both_loop_empty v (476 - 457)
  have hl := calibrateBothSets.both_loop_lines v (476 - 457)
  have hrange : (∀ i ∈ List.range' 457 (476 - 457), calibrateBothSets.validPair v i = false)
      ↔ ∀ i, 457 ≤ i → i ≤ 475 → calibrateBothSets.validPair v i = false := by
    constructor
    · intro h i h1 h2
      exact h i (by rw [List.mem_range'_1]; omega)
    · intro h i hi
      rw [List.mem_range'_1] at hi
      exact h i (by omega) (by omega)
  rw [hrange] at he
  unfold calibrateBothSets
  generalize calibrateBothSets.loop v (476 - 457) = s at he hr hl
  cases hL : s.imagePointsLeft.isEmpty
  · have hR : s.imagePointsRight.isEmpty = false := by rw [hr, hL]
    have hex : ∃ i, 457 ≤ i ∧ i ≤ 475 ∧ calibrateBothSets.validPair v i = true := by
      by_contra hcon
      have : ∀ i, 457 ≤ i → i ≤ 475 → calibrateBothSets.validPair v i = false := by
        intro i h1 h2
        cases hv : calibrateBothSets.validPair v i
        · rfl
        · exact absurd ⟨i, h1, h2, hv⟩ hcon
      have := he.mpr this
      simp [hL] at this
    have hnall : ¬ ∀ i, 457 ≤ i → i ≤ 475 → calibrateBothSets.validPair v i = false := by
      obtain ⟨i, h1, h2, h3⟩ := hex
      intro hall
      simp [hall i h1 h2] at h3
    simp [calibrateBothSets.finish, hL, hR, hex, hnall]
  · have hall := he.mp hL
    have hnex : ¬ ∃ i, 457 ≤ i ∧ i ≤ 475 ∧ calibrateBothSets.validPair v i = true := by
      rintro ⟨i, h1, h2, h3⟩
      simp [hall i h1 h2] at h3
    refine ⟨?_, ?_, ?_⟩
    · simp only [calibrateBothSets.finish, hL, if_true, true_iff]
      exact hall
    · simp [calibrateBothSets.finish, hL, hnex]
    · intro _
      refine ⟨by simp [calibrateBothSets.finish, hL], ?_, ?_⟩
      · intro q ok hmem
        simp [calibrateBothSets.finish, hL] at hmem
        exact (hl _ hmem).not_openWrite q ok rfl
      · intro q k m hmem
        simp [calibrateBothSets.finish, hL] at hmem
        exact (hl _ hmem).not_write q k m rfl

/-- C15: the `main` of calibration.cpp returns 0 whatever
`stereoRectifyAndDisplay` returns and does.  With no calibration file on
disk, and with all three files on disk but no image that loads, the routine
reports the error and returns -1, and `main` still returns 0. -/
theorem calibration_main_returns_zero (v : Vision) (d : Disk) (gen : Nat) :
    (calibration.main v d gen).ret = 0
    ∧ (calibration.main v d gen).log = (stereoRectifyAndDisplay v d gen).log
    ∧ (calibration.main v d gen).disk = (stereoRectifyAndDisplay v d gen).disk
    ∧ (stereoRectifyAndDisplay sampleVision blankDisk 0).ret = -1
    ∧ (calibration.main sampleVision blankDisk 0).ret = 0
    ∧ Event.cerr "Error: Could not open left_camera_calibration.yml\n"
        ∈ (stereoRectifyAndDisplay sampleVision blankDisk 0).log
    ∧ (stereoRectifyAndDisplay blindVision stereoDisk 0).ret = -1
    ∧ (calibration.main blindVision stereoDisk 0).ret = 0
    ∧ Event.cerr "Error: Could not load one or both images.\n"
        ∈ (stereoRectifyAndDisplay blindVision stereoDisk 0).log := by
  refine ⟨rfl, rfl, rfl, by decide, rfl, by decide, by decide, rfl, by decide⟩

/-! ## The second emptiness checks -/

/-- The part of `stereoCalibratePair` after the loop never raises the
"no valid detections" error. -/
theorem stereoCalibratePair.pair_finish_second_check (v : Vision) (d : Disk)
    (KL dL KR dR : Mat) (s : stereoCalibratePair.Loop)
    (hs : Event.cerr "No valid checkerboard detections found for stereo calibration.\n"
      ∉ s.log) :
    Event.cerr "No valid checkerboard detections found for stereo calibration.\n"
      ∉ (stereoCalibratePair.finish v d KL dL KR dR s).log := by
  by_cases hk : s.objectPoints.length < 5
  · rw [(stereoCalibratePair.finish_few v d KL dL KR dR s hk).2.2]
    simp [hs]
  · have hne : s.objectPoints.isEmpty = false := by
      cases hp : s.objectPoints with
      | nil => simp [hp] at hk
      | cons a l => rfl
    cases hw : d.writable "stereo_calibration.yml" <;>
      simp [stereoCalibratePair.finish, hk, hne, FileStorage.openWrite, hw,
        FileStorage.write, FileStorage.writeLog, hs]

/-- C14: neither second emptiness check can fire.  `calibrateBothSets` never
raises "No valid detections for Right camera", because after any number of
iterations the right list is non-empty whenever the left one is; and
`stereoCalibratePair` never raises "No valid checkerboard detections found",
because a list that passed the fewer-than-5 check is not empty. -/
theorem second_emptiness_checks_unreachable (v : Vision) (d : Disk) (log : List Event)
    (n : Nat) :
    Event.cerr "No valid detections for Right camera. Calibration failed!"
      ∉ (calibrateBothSets v d).log
    ∧ Event.cerr "No valid checkerboard detections found for stereo calibration.\n"
      ∉ (stereoCalibratePair v d).log
    ∧ ((calibrateBothSets.loop v n).imagePointsLeft.isEmpty = false →
        (calibrateBothSets.loop v n).imagePointsRight.isEmpty = false)
    ∧ (¬ (stereoCalibratePair.loop v log n).objectPoints.length < 5 →
        (stereoCalibratePair.loop v log n).objectPoints.isEmpty = false) := by
  refine ⟨?_, ?_, ?_, ?_⟩
  · have hr := (calibrateBothSets.both_loop_empty v (476 - 457)).2
    have hl := calibrateBothSets.both_loop_lines v (476 - 457)
    unfold calibrateBothSets
    generalize calibrateBothSets.loop v (476 - 457) = s at hr hl
    have hs : Event.cerr "No valid detections for Right camera. Calibration failed!"
        ∉ s.log := by
      intro hmem
      have := (hl _ hmem).cerr_head _ rfl
      simp at this
    cases hL : s.imagePointsLeft.isEmpty
    · have hR : s.imagePointsRight.isEmpty = false := by rw [hr, hL]
      cases hwl : d.writable "left_camera_calibration.yml" <;>
      cases hwr : d.writable "right_camera_calibration.yml" <;>
      simp [calibrateBothSets.finish, hL, hR, FileStorage.openWrite, FileStorage.write,
        FileStorage.writeLog, hwl, hwr, hs]
    · simp [calibrateBothSets.finish, hL, hs]
  · cases hdL : d.files "left_camera_calibration.yml" with
    | none => simp [stereoCalibratePair, FileStorage.openRead, hdL]
    | some docL =>
      cases hdR : d.files "right_camera_calibration.yml" with
      | none => simp [stereoCalibratePair, FileStorage.openRead, hdL, hdR]
      | some docR =>
        simp only [stereoCalibratePair, FileStorage.openRead, hdL, hdR, Bool.not_true,
          Bool.false_eq_true, if_false]
        apply stereoCalibratePair.pair_finish_second_check
        intro hmem
        rcases (stereoCalibratePair.pair_foldl_log v _ _).2.2 _ hmem with h | h
        · simp [stereoCalibratePair.init] at h
        · have := h.cerr_head _ rfl
          simp at this
  · intro hL
    rw [(calibrateBothSets.both_loop_empty v n).2, hL]
  · intro hk
    cases hp : (stereoCalibratePair.loop v log n).objectPoints with
    | nil => simp [hp] at hk
    | cons a l => rfl

/-! ## The display loop -/

namespace displayCheckerBoardPattern

/-- One iteration keeps the balance between the two corner lists and the
list of failed right images. -/
theorem display_body_counts (v : Vision) (u : Display) (s : Loop) (i : Nat)
    (h : s.allCornersLeft.length = s.allCornersRight.length + s.failedImagesRight.length) :
    (body v u s i).allCornersLeft.length
      = (body v u s i).allCornersRight.length + (body v u s i).failedImagesRight.length := by
  unfold body
  cases h0 : s.exited <;> cases h1 : (v.imread (fnameL i)).empty <;>
    cases h2 : (v.imread (fnameR i)).empty <;>
    simp [h] <;> split_ifs <;> simp [h] <;> omega

/-- One iteration adds at most its own image name to each failure list. -/
theorem display_body_failed (v : Vision) (u : Display) (s : Loop) (i : Nat) :
    (∃ FL, (body v u s i).failedImagesLeft = s.failedImagesLeft ++ FL
        ∧ List.Sublist FL [fnameL i])
    ∧ (∃ FR, (body v u s i).failedImagesRight = s.failedImagesRight ++ FR
        ∧ List.Sublist FR [fnameR i]) := by
  unfold body
  cases h0 : s.exited <;> cases h1 : (v.imread (fnameL i)).empty <;>
    cases h2 : (v.imread (fnameR i)).empty <;>
    simp <;> split_ifs <;> simp

/-- One iteration extends the log by lines of its own index. -/
theorem display_body_log (v : Vision) (u : Display) (s : Loop) (i : Nat) :
    ∃ added, (body v u s i).log = s.log ++ added ∧ ∀ e ∈ added, DisplayLine v i e := by
  unfold body DisplayLine detections detectL detectR
  cases h0 : s.exited <;> cases h1 : (v.imread (fnameL i)).empty <;>
    cases h2 : (v.imread (fnameR i)).empty <;>
    simp [String.data_append] <;> split_ifs <;> simp_all [String.data_append]

end displayCheckerBoardPattern

/-! ## Image paths -/

set_option maxRecDepth 100000 in
/-- The 38 image paths of the index range are pairwise different. -/
theorem image_paths_nodup :
    ((List.range' 457 (476 - 457)).map fnameL
      ++ (List.range' 457 (476 - 457)).map fnameR).Nodup := by
  decide

/-- Within the index range, a path fixes its side and its index. -/
theorem image_paths_inj (i j : Nat) (hi : 457 ≤ i ∧ i ≤ 475) (hj : 457 ≤ j ∧ j ≤ 475) :
    (fnameL i = fnameL j → i = j) ∧ (fnameR i = fnameR j → i = j)
    ∧ fnameL i ≠ fnameR j := by
  have hmi : i ∈ List.range' 457 (476 - 457) := by rw [List.mem_range'_1]; omega
  have hmj : j ∈ List.range' 457 (476 - 457) := by rw [List.mem_range'_1]; omega
  obtain ⟨hL, hR, hd⟩ := List.nodup_append.mp image_paths_nodup
  refine ⟨fun h => List.inj_on_of_nodup_map hL hmi hmj h,
    fun h => List.inj_on_of_nodup_map hR hmi hmj h, ?_⟩
  intro h
  exact hd (List.mem_map_of_mem fnameL hmi) (h ▸ List.mem_map_of_mem fnameR hmj)

namespace displayCheckerBoardPattern

/-- The balance, the failure lists and the log after folding the body over
any list of indices. -/
theorem display_foldl (v : Vision) (u : Display) (l : List Nat) (s : Loop) :
    (s.allCornersLeft.length = s.allCornersRight.length + s.failedImagesRight.length →
      (l.foldl (body v u) s).allCornersLeft.length
        = (l.foldl (body v u) s).allCornersRight.length
          + (l.foldl (body v u) s).failedImagesRight.length)
    ∧ (∃ FL, (l.foldl (body v u) s).failedImagesLeft = s.failedImagesLeft ++ FL
        ∧ List.Sublist FL (l.map fnameL))
    ∧ (∃ FR, (l.foldl (body v u) s).failedImagesRight = s.failedImagesRight ++ FR
        ∧ List.Sublist FR (l.map fnameR))
    ∧ (∀ e ∈ (l.foldl (body v u) s).log, e ∈ s.log ∨ ∃ j ∈ l, DisplayLine v j e) := by
  induction l generalizing s with
  | nil => exact ⟨fun h => h, ⟨[], by simp⟩, ⟨[], by simp⟩, fun _ he => Or.inl he⟩
  | cons i l ih =>
    obtain ⟨k1, ⟨FL', k2, k2'⟩, ⟨FR', k3, k3'⟩, k4⟩ := ih (body v u s i)
    obtain ⟨⟨FL, b2, b2'⟩, ⟨FR, b3, b3'⟩⟩ := display_body_failed v u s i
    obtain ⟨added, b4, b4'⟩ := display_body_log v u s i
    simp only [List.foldl_cons, List.map_cons]
    refine ⟨fun h => k1 (display_body_counts v u s i h), ⟨FL ++ FL', ?_, ?_⟩,
      ⟨FR ++ FR', ?_, ?_⟩, ?_⟩
    · rw [k2, b2, List.append_assoc]
    · exact List.Sublist.append b2' k2'
    · rw [k3, b3, List.append_assoc]
    · exact List.Sublist.append b3' k3'
    · intro e he
      rcases k4 e he with h | ⟨j, hj, h⟩
      · rw [b4] at h
        rcases List.mem_append.mp h with h | h
        · exact Or.inl h
        · exact Or.inr ⟨i, List.mem_cons_self _ _, b4' e h⟩
      · exact Or.inr ⟨j, List.mem_cons_of_mem _ hj, h⟩

end displayCheckerBoardPattern

namespace displayCheckerBoardPattern

/-- A detection among those of index `j` is the left one, or the right one
after a left success. -/
theorem mem_detections (v : Vision) (j : Nat) (p : String) (b : Bool)
    (h : Event.findChessboardCorners p b ∈ detections v j) :
    (p = fnameL j ∧ b = (detectL v j).1)
    ∨ (p = fnameR j ∧ (detectL v j).1 = true) := by
  unfold detections at h
  split_ifs at h with h1 h2
  · simp at h
  · simp only [List.mem_cons, Event.findChessboardCorners.injEq, List.mem_singleton,
      List.not_mem_nil, or_false] at h
    rcases h with ⟨hp, hb⟩ | ⟨hp, -⟩
    · exact Or.inl ⟨hp, hb⟩
    · exact Or.inr ⟨hp, h2⟩
  · simp only [List.mem_cons, Event.findChessboardCorners.injEq, List.not_mem_nil,
      or_false] at h
    exact Or.inl h

/-- A detection in the log of the loop belongs to the detections of an index
the loop has taken. -/
theorem display_loop_detections (v : Vision) (u : Display) (n : Nat) (p : String) (b : Bool)
    (h : Event.findChessboardCorners p b ∈ (loop v u n).log) :
    ∃ j ∈ List.range' 457 n, Event.findChessboardCorners p b ∈ detections v j := by
  rcases (display_foldl v u (List.range' 457 n) init).2.2.2 _ h with h0 | ⟨j, hj, hd⟩
  · simp [init] at h0
  · refine ⟨j, hj, ?_⟩
    rcases hd with hd | hd | ⟨m, hd, -⟩ | hd | ⟨w, m, hd⟩ | hd | ⟨m, hd⟩
    all_goals first
      | exact hd
      | exact absurd hd (by simp)

/-- An error line in the log of the loop starts with the letter `C`. -/
theorem display_loop_cerr (v : Vision) (u : Display) (n : Nat) (m : String)
    (h : Event.cerr m ∈ (loop v u n).log) : m.data.head? = some 'C' := by
  rcases (display_foldl v u (List.range' 457 n) init).2.2.2 _ h with h0 | ⟨j, -, hd⟩
  · simp [init] at h0
  · rcases hd with hd | hd | ⟨m', hd, hm⟩ | hd | ⟨w, m', hd⟩ | hd | ⟨m', hd⟩
    · simp at hd
    · simp at hd
    · rw [Event.cerr.inj hd]
      exact hm
    · unfold detections at hd
      split_ifs at hd <;> simp at hd
    · simp at hd
    · simp at hd
    · simp at hd

end displayCheckerBoardPattern

/-- C13: after each of the 19 iterations of the display loop the left corner
list is as long as the right corner list and the list of failed right images
together; no right detection is in the log for an index whose left detection
failed; and no name occurs twice in the two failure lists.  So the mismatch
warning is printed exactly when, at the end of the loop, `failedImagesRight`
is not empty. -/
theorem displayCheckerBoardPattern_balance (v : Vision) (u : Display) (d : Disk) (n : Nat)
    (hn : n ≤ 476 - 457) :
    (displayCheckerBoardPattern.loop v u n).allCornersLeft.length
      = (displayCheckerBoardPattern.loop v u n).allCornersRight.length
        + (displayCheckerBoardPattern.loop v u n).failedImagesRight.length
    ∧ (displayCheckerBoardPattern.loop v u n).allCornersRight.length
      ≤ (displayCheckerBoardPattern.loop v u n).allCornersLeft.length
    ∧ (∀ i, 457 ≤ i → i ≤ 475 →
        Event.findChessboardCorners (fnameL i) false
          ∈ (displayCheckerBoardPattern.loop v u n).log →
        ∀ b, Event.findChessboardCorners (fnameR i) b
          ∉ (displayCheckerBoardPattern.loop v u n).log)
    ∧ ((displayCheckerBoardPattern.loop v u n).failedImagesLeft
        ++ (displayCheckerBoardPattern.loop v u n).failedImagesRight).Nodup
    ∧ (Event.cerr "Warning: Number of detected corners in left and right images do not match!"
          ∈ (displayCheckerBoardPattern v u d).log
        ↔ (displayCheckerBoardPattern.loop v u (476 - 457)).failedImagesRight ≠ []) := by
  have hbal : ∀ k, (displayCheckerBoardPattern.loop v u k).allCornersLeft.length
      = (displayCheckerBoardPattern.loop v u k).allCornersRight.length
        + (displayCheckerBoardPattern.loop v u k).failedImagesRight.length := fun k =>
    (displayCheckerBoardPattern.display_foldl v u (List.range' 457 k)
      displayCheckerBoardPattern.init).1 rfl
  have hin : ∀ j ∈ List.range' 457 n, 457 ≤ j ∧ j ≤ 475 := by
    intro j hj
    rw [List.mem_range'_1] at hj
    omega
  refine ⟨hbal n, by rw [hbal n]; omega, ?_, ?_, ?_⟩
  · intro i h1 h2 hL b hR
    obtain ⟨j, hj, hdj⟩ := displayCheckerBoardPattern.display_loop_detections v u n _ _ hL
    obtain ⟨k, hk, hdk⟩ := displayCheckerBoardPattern.display_loop_detections v u n _ _ hR
    have hLf : (displayCheckerBoardPattern.detectL v i).1 = false := by
      rcases displayCheckerBoardPattern.mem_detections v j _ _ hdj with ⟨hp, hb⟩ | ⟨hp, -⟩
      · rw [(image_paths_inj i j ⟨h1, h2⟩ (hin j hj)).1 hp]
        exact hb.symm
      · exact absurd hp (image_paths_inj i j ⟨h1, h2⟩ (hin j hj)).2.2
    have hLt : (displayCheckerBoardPattern.detectL v i).1 = true := by
      rcases displayCheckerBoardPattern.mem_detections v k _ _ hdk with ⟨hp, -⟩ | ⟨hp, hb⟩
      · exact absurd hp.symm (image_paths_inj k i (hin k hk) ⟨h1, h2⟩).2.2
      · rw [(image_paths_inj i k ⟨h1, h2⟩ (hin k hk)).2.1 hp]
        exact hb
    rw [hLf] at hLt
    exact absurd hLt (by decide)
  · obtain ⟨-, ⟨FL, e1, s1⟩, ⟨FR, e2, s2⟩, -⟩ :=
      displayCheckerBoardPattern.display_foldl v u (List.range' 457 n)
        displayCheckerBoardPattern.init
    have hsub : List.Sublist (List.range' 457 n) (List.range' 457 (476 - 457)) := by
      have : List.range' 457 (476 - 457)
          = List.range' 457 n ++ List.range' (457 + n) (476 - 457 - n) := by
        rw [List.range'_append_1]
        congr 1
        omega
      rw [this]
      exact List.sublist_append_left _ _
    have e1' : (displayCheckerBoardPattern.loop v u n).failedImagesLeft = FL := by
      simpa [displayCheckerBoardPattern.init] using e1
    have e2' : (displayCheckerBoardPattern.loop v u n).failedImagesRight = FR := by
      simpa [displayCheckerBoardPattern.init] using e2
    rw [e1', e2']
    exact List.Nodup.sublist
      (List.Sublist.append (s1.trans (hsub.map fnameL)) (s2.trans (hsub.map fnameR)))
      image_paths_nodup
  · have hb := hbal (476 - 457)
    have hc := displayCheckerBoardPattern.display_loop_cerr v u (476 - 457)
      "Warning: Number of detected corners in left and right images do not match!"
    unfold displayCheckerBoardPattern
    generalize displayCheckerBoardPattern.loop v u (476 - 457) = s at hb hc
    have hs : Event.cerr
        "Warning: Number of detected corners in left and right images do not match!"
        ∉ s.log := by
      intro hmem
      have := hc hmem
      simp at this
    by_cases hlen : s.allCornersLeft.length = s.allCornersRight.length
    · have hF : s.failedImagesRight = [] := by
        apply List.eq_nil_of_length_eq_zero
        omega
      simp [displayCheckerBoardPattern.finish, hlen, hs, hF]
    · have hF : s.failedImagesRight ≠ [] := by
        intro h0
        rw [h0] at hb
        exact hlen (by simpa using hb)
      simp [displayCheckerBoardPattern.finish, hlen, hF]

/-- C13 at a sample input: all 19 iterations with a library in which every
left detection succeeds and every right detection fails, so that the list of
failed right images is not empty and the warning is printed. -/
theorem displayCheckerBoardPattern_balance_witness :
    19 ≤ 476 - 457
    ∧ (displayCheckerBoardPattern.loop rightFailVision sampleDisplay 19).allCornersLeft.length
      = (displayCheckerBoardPattern.loop rightFailVision sampleDisplay 19).allCornersRight.length
        + (displayCheckerBoardPattern.loop rightFailVision sampleDisplay
            19).failedImagesRight.length
    ∧ ((displayCheckerBoardPattern.loop rightFailVision sampleDisplay 19).failedImagesLeft
        ++ (displayCheckerBoardPattern.loop rightFailVision sampleDisplay
            19).failedImagesRight).Nodup
    ∧ (displayCheckerBoardPattern.loop rightFailVision sampleDisplay 19).failedImagesRight.length
        = 19
    ∧ Event.cerr "Warning: Number of detected corners in left and right images do not match!"
        ∈ (displayCheckerBoardPattern rightFailVision sampleDisplay blankDisk).log :=
  ⟨by decide,
    (displayCheckerBoardPattern_balance rightFailVision sampleDisplay blankDisk 19
      (by decide)).1,
    (displayCheckerBoardPattern_balance rightFailVision sampleDisplay blankDisk 19
      (by decide)).2.2.2.1,
    by decide,
    (displayCheckerBoardPattern_balance rightFailVision sampleDisplay blankDisk 19
      (by decide)).2.2.2.2.mpr (by decide)⟩

/-! ## The naming scheme -/

/-- Image reads in the log of a fold come from the log on entry or from the
iteration of an index of the list, when each iteration reads only the two
images of its own index. -/
theorem foldl_imread {σ : Type} (log : σ → List Event) (body : σ → Nat → σ)
    (hb : ∀ s i q, Event.imread q ∈ log (body s i) →
      Event.imread q ∈ log s ∨ q = fnameL i ∨ q = fnameR i)
    (l : List Nat) (s : σ) (q : String) (h : Event.imread q ∈ log (l.foldl body s)) :
    Event.imread q ∈ log s ∨ ∃ j ∈ l, q = fnameL j ∨ q = fnameR j := by
  induction l generalizing s with
  | nil => exact Or.inl h
  | cons i l ih =>
    rcases ih (body s i) h with h1 | ⟨j, hj, h1⟩
    · rcases hb s i q h1 with h2 | h2
      · exact Or.inl h2
      · exact Or.inr ⟨i, List.mem_cons_self _ _, h2⟩
    · exact Or.inr ⟨j, List.mem_cons_of_mem _ hj, h1⟩

/-- An iteration of `calibrateBothSets` reads only the two images of its
index. -/
theorem calibrateBothSets.both_body_imread (v : Vision) (s : calibrateBothSets.Loop)
    (i : Nat) (q : String) (h : Event.imread q ∈ (calibrateBothSets.body v s i).log) :
    Event.imread q ∈ s.log ∨ q = fnameL i ∨ q = fnameR i := by
  unfold calibrateBothSets.body at h
  cases h1 : (v.imread (fnameL i)).empty <;> cases h2 : (v.imread (fnameR i)).empty <;>
    simp [h1, h2, calibrateBothSets.useGrayscalePreprocessing] at h <;>
    (try split_ifs at h) <;> (try simp at h) <;> tauto

/-- An iteration of `stereoCalibratePair` reads only the two images of its
index. -/
theorem stereoCalibratePair.pair_body_imread (v : Vision) (s : stereoCalibratePair.Loop)
    (i : Nat) (q : String) (h : Event.imread q ∈ (stereoCalibratePair.body v s i).log) :
    Event.imread q ∈ s.log ∨ q = fnameL i ∨ q = fnameR i := by
  unfold stereoCalibratePair.body at h
  cases h1 : (v.imread (fnameL i)).empty <;> cases h2 : (v.imread (fnameR i)).empty <;>
    simp [h1, h2, stereoCalibratePair.refineCorners] at h <;>
    (try split_ifs at h) <;> (try simp at h) <;> tauto

/-- An iteration of `displayCheckerBoardPattern` reads only the two images
of its index. -/
theorem displayCheckerBoardPattern.display_body_imread (v : Vision) (u : Display)
    (s : displayCheckerBoardPattern.Loop) (i : Nat) (q : String)
    (h : Event.imread q ∈ (displayCheckerBoardPattern.body v u s i).log) :
    Event.imread q ∈ s.log ∨ q = fnameL i ∨ q = fnameR i := by
  obtain ⟨added, hlog, hadded⟩ := displayCheckerBoardPattern.display_body_log v u s i
  rw [hlog] at h
  rcases List.mem_append.mp h with h | h
  · exact Or.inl h
  · rcases hadded _ h with hd | hd | ⟨m, hd, -⟩ | hd | ⟨w, m, hd⟩ | hd | ⟨m, hd⟩
    · exact Or.inr (Or.inl (Event.imread.inj hd))
    · exact Or.inr (Or.inr (Event.imread.inj hd))
    · simp at hd
    · unfold displayCheckerBoardPattern.detections at hd
      split_ifs at hd <;> simp at hd
    · simp at hd
    · simp at hd
    · simp at hd

/-- Within the index range the padded index is the character `0` followed
by the three decimal digits of the index. -/
theorem setw4_digits (i : Nat) (h1 : 457 ≤ i) (h2 : i ≤ 475) :
    setw4 i = String.mk
        ['0', Nat.digitChar (i / 100), Nat.digitChar (i / 10 % 10), Nat.digitChar (i % 10)]
    ∧ (setw4 i).length = 4 := by
  have h : ∀ j ∈ List.range' 457 (476 - 457),
      setw4 j = String.mk
          ['0', Nat.digitChar (j / 100), Nat.digitChar (j / 10 % 10), Nat.digitChar (j % 10)]
      ∧ (setw4 j).length = 4 := by
    decide
  exact h i (by rw [List.mem_range'_1]; omega)

/-- An index of a prefix of the loop range lies in 457..475. -/
theorem mem_range_bounds (n j : Nat) (hn : n ≤ 476 - 457) (hj : j ∈ List.range' 457 n) :
    457 ≤ j ∧ j ≤ 475 := by
  rw [List.mem_range'_1] at hj
  omega

/-- Every image that `calibrateBothSets` reads is a left or right path of an
index in 457..475. -/
theorem calibrateBothSets_imread (v : Vision) (d : Disk) (q : String)
    (h : Event.imread q ∈ (calibrateBothSets v d).log) :
    ∃ i, 457 ≤ i ∧ i ≤ 475 ∧ (q = fnameL i ∨ q = fnameR i) := by
  have hloop : Event.imread q ∈ (calibrateBothSets.loop v (476 - 457)).log := by
    unfold calibrateBothSets at h
    generalize calibrateBothSets.loop v (476 - 457) = s at h ⊢
    unfold calibrateBothSets.finish at h
    cases hL : s.imagePointsLeft.isEmpty <;> cases hR : s.imagePointsRight.isEmpty <;>
      cases hwl : d.writable "left_camera_calibration.yml" <;>
      cases hwr : d.writable "right_camera_calibration.yml" <;>
      simp [hL, hR, FileStorage.openWrite, FileStorage.write, FileStorage.writeLog, hwl,
        hwr] at h <;>
      exact h
  rcases foldl_imread calibrateBothSets.Loop.log (calibrateBothSets.body v)
    (calibrateBothSets.both_body_imread v) _ _ q hloop with h0 | ⟨j, hj, hq⟩
  · simp [calibrateBothSets.init] at h0
  · exact ⟨j, (mem_range_bounds _ j (le_refl _) hj).1, (mem_range_bounds _ j (le_refl _) hj).2,
      hq⟩

/-- Every image that `stereoCalibratePair` reads is a left or right path of
an index in 457..475. -/
theorem stereoCalibratePair_imread (v : Vision) (d : Disk) (q : String)
    (h : Event.imread q ∈ (stereoCalibratePair v d).log) :
    ∃ i, 457 ≤ i ∧ i ≤ 475 ∧ (q = fnameL i ∨ q = fnameR i) := by
  cases hdL : d.files "left_camera_calibration.yml" with
  | none => simp [stereoCalibratePair, FileStorage.openRead, hdL] at h
  | some docL =>
    cases hdR : d.files "right_camera_calibration.yml" with
    | none => simp [stereoCalibratePair, FileStorage.openRead, hdL, hdR] at h
    | some docR =>
      simp only [stereoCalibratePair, FileStorage.openRead, hdL, hdR, Bool.not_true,
        Bool.false_eq_true, if_false] at h
      generalize hs : stereoCalibratePair.loop v _ (476 - 457) = s at h
      have hloop : Event.imread q ∈ s.log := by
        unfold stereoCalibratePair.finish at h
        cases hw : d.writable "stereo_calibration.yml" <;>
          simp [FileStorage.openWrite, FileStorage.write, FileStorage.writeLog, hw] at h <;>
          split_ifs at h <;> simp at h <;> exact h
      rw [← hs] at hloop
      rcases foldl_imread stereoCalibratePair.Loop.log (stereoCalibratePair.body v)
        (stereoCalibratePair.pair_body_imread v) _ _ q hloop with h0 | ⟨j, hj, hq⟩
      · simp [stereoCalibratePair.init] at h0
      · exact ⟨j, (mem_range_bounds _ j (le_refl _) hj).1,
          (mem_range_bounds _ j (le_refl _) hj).2, hq⟩

/-- Every image that `displayCheckerBoardPattern` reads is a left or right
path of an index in 457..475. -/
theorem displayCheckerBoardPattern_imread (v : Vision) (u : Display) (d : Disk) (q : String)
    (h : Event.imread q ∈ (displayCheckerBoardPattern v u d).log) :
    ∃ i, 457 ≤ i ∧ i ≤ 475 ∧ (q = fnameL i ∨ q = fnameR i) := by
  have hloop : Event.imread q ∈ (displayCheckerBoardPattern.loop v u (476 - 457)).log := by
    unfold displayCheckerBoardPattern at h
    generalize displayCheckerBoardPattern.loop v u (476 - 457) = s at h ⊢
    unfold displayCheckerBoardPattern.finish at h
    split_ifs at h <;> simp at h <;> exact h
  rcases foldl_imread displayCheckerBoardPattern.Loop.log (displayCheckerBoardPattern.body v u)
    (displayCheckerBoardPattern.display_body_imread v u) _ _ q hloop with h0 | ⟨j, hj, hq⟩
  · simp [displayCheckerBoardPattern.init] at h0
  · exact ⟨j, (mem_range_bounds _ j (le_refl _) hj).1, (mem_range_bounds _ j (le_refl _) hj).2,
      hq⟩

/-- The two images that `stereoRectifyAndDisplay` reads are the left and the
right path of the picked index. -/
theorem stereoRectifyAndDisplay_imread (v : Vision) (d : Disk) (gen : Nat) (q : String)
    (h : Event.imread q ∈ (stereoRectifyAndDisplay v d gen).log) :
    q = fnameL (stereoRectifyAndDisplay.distrib gen)
      ∨ q = fnameR (stereoRectifyAndDisplay.distrib gen) := by
  revert h
  cases hl : d.files "left_camera_calibration.yml" <;>
    cases hr : d.files "right_camera_calibration.yml" <;>
    cases hs : d.files "stereo_calibration.yml" <;>
    cases hiL : (v.imread (fnameL (stereoRectifyAndDisplay.distrib gen))).empty <;>
    cases hiR : (v.imread (fnameR (stereoRectifyAndDisplay.distrib gen))).empty <;>
    simp [stereoRectifyAndDisplay, FileStorage.openRead, hl, hr, hs, hiL, hiR]

/-- C11: every image path read by the three loops and by the random pick of
`stereoRectifyAndDisplay` is the left or the right path of an index in
457..475; the left path is `data/CalibrationLeft/DSCF`, the index padded to
the four characters `0` and its three decimal digits, and `_L.JPG`, the right
path likewise with `data/CalibrationRight/DSCF` and `_R.JPG`; an iteration
reads only the two paths of its own index; and within the range different
indices give different paths. -/
theorem image_path_scheme (v : Vision) (u : Display) (d : Disk) (gen : Nat) :
    (∀ i, 457 ≤ i → i ≤ 475 →
      fnameL i = "data/CalibrationLeft/DSCF" ++ setw4 i ++ "_L.JPG"
      ∧ fnameR i = "data/CalibrationRight/DSCF" ++ setw4 i ++ "_R.JPG"
      ∧ setw4 i = String.mk
          ['0', Nat.digitChar (i / 100), Nat.digitChar (i / 10 % 10), Nat.digitChar (i % 10)]
      ∧ (setw4 i).length = 4)
    ∧ fnameL 457 = "data/CalibrationLeft/DSCF0457_L.JPG"
    ∧ fnameR 475 = "data/CalibrationRight/DSCF0475_R.JPG"
    ∧ (∀ q, Event.imread q ∈ (displayCheckerBoardPattern v u d).log →
        ∃ i, 457 ≤ i ∧ i ≤ 475 ∧ (q = fnameL i ∨ q = fnameR i))
    ∧ (∀ q, Event.imread q ∈ (calibrateBothSets v d).log →
        ∃ i, 457 ≤ i ∧ i ≤ 475 ∧ (q = fnameL i ∨ q = fnameR i))
    ∧ (∀ q, Event.imread q ∈ (stereoCalibratePair v d).log →
        ∃ i, 457 ≤ i ∧ i ≤ 475 ∧ (q = fnameL i ∨ q = fnameR i))
    ∧ (457 ≤ stereoRectifyAndDisplay.distrib gen ∧ stereoRectifyAndDisplay.distrib gen ≤ 475)
    ∧ (∀ q, Event.imread q ∈ (stereoRectifyAndDisplay v d gen).log →
        q = fnameL (stereoRectifyAndDisplay.distrib gen)
          ∨ q = fnameR (stereoRectifyAndDisplay.distrib gen))
    ∧ (∀ s i q, Event.imread q ∈ (displayCheckerBoardPattern.body v u s i).log →
        Event.imread q ∈ s.log ∨ q = fnameL i ∨ q = fnameR i)
    ∧ (∀ s i q, Event.imread q ∈ (calibrateBothSets.body v s i).log →
        Event.imread q ∈ s.log ∨ q = fnameL i ∨ q = fnameR i)
    ∧ (∀ s i q, Event.imread q ∈ (stereoCalibratePair.body v s i).log →
        Event.imread q ∈ s.log ∨ q = fnameL i ∨ q = fnameR i)
    ∧ (∀ i j, 457 ≤ i → i ≤ 475 → 457 ≤ j → j ≤ 475 →
        (fnameL i = fnameL j → i = j) ∧ (fnameR i = fnameR j → i = j)
        ∧ fnameL i ≠ fnameR j) := by
  have hd : 457 ≤ stereoRectifyAndDisplay.distrib gen
      ∧ stereoRectifyAndDisplay.distrib gen ≤ 475 := by
    unfold stereoRectifyAndDisplay.distrib
    omega
  exact ⟨fun i h1 h2 => ⟨rfl, rfl, setw4_digits i h1 h2⟩, by decide, by decide,
    displayCheckerBoardPattern_imread v u d, calibrateBothSets_imread v d,
    stereoCalibratePair_imread v d, hd, stereoRectifyAndDisplay_imread v d gen,
    displayCheckerBoardPattern.display_body_imread v u,
    calibrateBothSets.both_body_imread v, stereoCalibratePair.pair_body_imread v,
    fun i j h1 h2 h3 h4 => image_paths_inj i j ⟨h1, h2⟩ ⟨h3, h4⟩⟩

end CameraCalibration
